import Mathlib

/-!
Verification development for the protein-analysis pipeline orchestrator
(`run_pipeline.py`) and its configuration loader (`src/config_loader.py`).

The Python data is JSON; we embed JSON values shallowly as `JValue`.
Python dictionaries are embedded as insertion-ordered association lists
(`JObj`); all dictionaries produced by `json.load` have pairwise-distinct
keys, which the theorems assume where it matters.

Python numbers are embedded as rationals (`Rat`): the orchestrator never
computes with them, it only stores and prints them, so the only loss is
cosmetic (a float such as `0.2` renders as `1/5` in a command string; the
rendered strings are only ever compared against fixed script-name literals,
never parsed).

Fallible Python code (dictionary indexing via `[]`, `.get` on a non-mapping,
iteration over a non-sequence, an uncaught exception) is embedded in
`Except String`; the error string names the Python exception class.
-/

set_option maxHeartbeats 1000000

namespace Pipeline

/-- JSON values as loaded by `json.load`. -/
inductive JValue : Type where
  | null : JValue
  | bool : Bool → JValue
  | num : Rat → JValue
  | str : String → JValue
  | arr : List JValue → JValue
  | obj : List (String × JValue) → JValue
  deriving Repr

/-- A Python dict from JSON: an insertion-ordered association list. -/
abbrev JObj := List (String × JValue)

namespace JValue

/-- Structural decidable equality for `JValue` (Python `==` on JSON data). -/
def beqFn : JValue → JValue → Bool
  | .null, .null => true
  | .bool a, .bool b => a == b
  | .num a, .num b => a == b
  | .str a, .str b => a == b
  | .arr a, .arr b => beqList a b
  | .obj a, .obj b => beqObj a b
  | _, _ => false
where
  beqList : List JValue → List JValue → Bool
    | [], [] => true
    | x :: xs, y :: ys => beqFn x y && beqList xs ys
    | _, _ => false
  beqObj : List (String × JValue) → List (String × JValue) → Bool
    | [], [] => true
    | (k, x) :: xs, (l, y) :: ys => k == l && beqFn x y && beqObj xs ys
    | _, _ => false

end JValue

mutual

theorem JValue.beqFn_iff : ∀ a b : JValue, JValue.beqFn a b = true ↔ a = b
  | .null, .null => by simp [JValue.beqFn]
  | .null, .bool _ | .null, .num _ | .null, .str _ | .null, .arr _ | .null, .obj _ => by
      simp [JValue.beqFn]
  | .bool _, .null | .bool _, .num _ | .bool _, .str _ | .bool _, .arr _ | .bool _, .obj _ => by
      simp [JValue.beqFn]
  | .num _, .null | .num _, .bool _ | .num _, .str _ | .num _, .arr _ | .num _, .obj _ => by
      simp [JValue.beqFn]
  | .str _, .null | .str _, .bool _ | .str _, .num _ | .str _, .arr _ | .str _, .obj _ => by
      simp [JValue.beqFn]
  | .arr _, .null | .arr _, .bool _ | .arr _, .num _ | .arr _, .str _ | .arr _, .obj _ => by
      simp [JValue.beqFn]
  | .obj _, .null | .obj _, .bool _ | .obj _, .num _ | .obj _, .str _ | .obj _, .arr _ => by
      simp [JValue.beqFn]
  | .bool a, .bool b => by simp [JValue.beqFn]
  | .num a, .num b => by simp [JValue.beqFn]
  | .str a, .str b => by simp [JValue.beqFn]
  | .arr a, .arr b => by
      simp only [JValue.beqFn]
      rw [JValue.beqFn.beqList_iff a b]
      simp
  | .obj a, .obj b => by
      simp only [JValue.beqFn]
      rw [JValue.beqFn.beqObj_iff a b]
      simp

theorem JValue.beqFn.beqList_iff : ∀ a b : List JValue,
    JValue.beqFn.beqList a b = true ↔ a = b
  | [], [] => by simp [JValue.beqFn.beqList]
  | [], _ :: _ => by simp [JValue.beqFn.beqList]
  | _ :: _, [] => by simp [JValue.beqFn.beqList]
  | x :: xs, y :: ys => by
      simp only [JValue.beqFn.beqList, Bool.and_eq_true]
      rw [JValue.beqFn_iff x y, JValue.beqFn.beqList_iff xs ys]
      simp

theorem JValue.beqFn.beqObj_iff : ∀ a b : List (String × JValue),
    JValue.beqFn.beqObj a b = true ↔ a = b
  | [], [] => by simp [JValue.beqFn.beqObj]
  | [], _ :: _ => by simp [JValue.beqFn.beqObj]
  | _ :: _, [] => by simp [JValue.beqFn.beqObj]
  | (k, x) :: xs, (l, y) :: ys => by
      simp only [JValue.beqFn.beqObj, Bool.and_eq_true]
      rw [JValue.beqFn_iff x y, JValue.beqFn.beqObj_iff xs ys]
      constructor
      · rintro ⟨⟨h1, h2⟩, h3⟩
        simp_all
      · intro h
        injection h with h1 h2
        injection h1 with h3 h4
        simp_all

end

instance : DecidableEq JValue := fun a b =>
  decidable_of_iff (JValue.beqFn a b = true) (JValue.beqFn_iff a b)

namespace JValue

/-- Python truthiness of a JSON value (`if value:`). -/
def truthy : JValue → Bool
  | .null => false
  | .bool b => b
  | .num q => q != 0
  | .str s => s != ""
  | .arr xs => !xs.isEmpty
  | .obj m => !m.isEmpty

end JValue

/-- Python truthiness of an optional string (`None` and `""` are falsy). -/
def truthyOptStr : Option String → Bool
  | none => false
  | some s => s != ""

/-- Python truthiness of an optional dict-valued variable
(records embedding JSON dicts with fixed keys are always non-empty,
hence truthy when present). -/
def truthyOpt : Option JValue → Bool
  | none => false
  | some v => v.truthy

namespace JObj

/-- First value stored under key `k` (Python dicts have unique keys). -/
def lookup (m : JObj) (k : String) : Option JValue :=
  List.lookup k m

/-- `k in d` for a Python dict. -/
def hasKey (m : JObj) (k : String) : Bool :=
  (m.lookup k).isSome

/-- `d[k] = v` on a Python dict: replace the value of an existing key in
place (keys are unique, so replacing the first occurrence is faithful),
or append a new key at the end (dicts preserve insertion order). -/
def setKey : JObj → String → JValue → JObj
  | [], k, v => [(k, v)]
  | (k', v') :: m, k, v =>
      if k' = k then (k, v) :: m else (k', v') :: setKey m k v

end JObj

/-- `d[k]` on a JSON value: `KeyError` when the key is absent, `TypeError`
when the value is not a mapping. -/
def pyIndex (v : JValue) (k : String) : Except String JValue :=
  match v with
  | .obj m =>
      match m.lookup k with
      | some x => .ok x
      | none => .error ("KeyError: " ++ k)
  | _ => .error ("TypeError: value is not subscriptable with key " ++ k)

/-- `d.get(k, default)` on a JSON value: `AttributeError` when the value is
not a mapping. -/
def pyGet (v : JValue) (k : String) (dflt : JValue) : Except String JValue :=
  match v with
  | .obj m => .ok ((m.lookup k).getD dflt)
  | _ => .error ("AttributeError: no attribute get, key " ++ k)

/-- `k in d` on a JSON value that must be a mapping. -/
def pyHasKey (v : JValue) (k : String) : Except String Bool :=
  match v with
  | .obj m => .ok (JObj.hasKey m k)
  | _ => .error "TypeError: argument of in is not a mapping"

/-- View a JSON value as a mapping (`TypeError` otherwise); used where the
source unconditionally treats a value as a dict (`.items()`, iteration over
keys followed by indexing). -/
def asObj (v : JValue) : Except String JObj :=
  match v with
  | .obj m => .ok m
  | _ => .error "TypeError: value is not a mapping"

/-- Iteration `for x in v` over a JSON value: a list yields its elements, a
string its characters, a dict its keys; other values raise `TypeError`.
(`None` is only iterated behind a truthiness guard in the source.) -/
def pyIter (v : JValue) : Except String (List JValue) :=
  match v with
  | .arr xs => .ok xs
  | .str s => .ok (s.data.map fun c => .str (String.mk [c]))
  | .obj m => .ok (m.map fun kv => .str kv.1)
  | _ => .error "TypeError: value is not iterable"

/-!
## `config_loader.deep_merge` (src/config_loader.py lines 118-133)

    result = copy.deepcopy(base)
    for key, value in override.items():
        if key in result and isinstance(result[key], dict) and isinstance(value, dict):
            result[key] = deep_merge(result[key], value)
        else:
            result[key] = copy.deepcopy(value)
    return result

The accumulating `result` is threaded as the first argument; `deepcopy` is
the identity in a pure embedding.
-/

mutual

def deep_merge (base : JObj) : JObj → JObj
  | [] => base
  | (k, v) :: rest =>
      deep_merge (base.setKey k (mergeValue (base.lookup k) v)) rest

/-- The value stored for one override entry: both sides mappings → recurse,
otherwise the override value replaces the base value. -/
def mergeValue (bv : Option JValue) : JValue → JValue
  | .obj om =>
      match bv with
      | some (.obj bm) => .obj (deep_merge bm om)
      | _ => .obj om
  | v => v

end

/-!
## Canonical serialization and the configuration hash

`run_pipeline.compute_config_hash` (lines 93-96) is
`hashlib.md5(json.dumps(config, sort_keys=True).encode()).hexdigest()`.
The MD5 digest is modelled by the canonical key-sorted serialization it is
computed from: two configurations receive the same modelled digest exactly
when `json.dumps(·, sort_keys=True)` coincides, which is also when their
real MD5 digests coincide (MD5 collisions are out of scope).  No claim
depends on the digest beyond equality tests.
-/

/-- Lexicographic comparison of strings by code point (Python `str` order,
used by `sorted`/`sort_keys`). -/
def lexLe : List Char → List Char → Bool
  | [], _ => true
  | _ :: _, [] => false
  | a :: as, b :: bs =>
      if a.toNat < b.toNat then true
      else if b.toNat < a.toNat then false
      else lexLe as bs

/-- Insertion sort of dict entries by key (the effect of
`json.dumps(..., sort_keys=True)` at one nesting level). -/
def keyInsert (kv : String × JValue) : JObj → JObj
  | [] => [kv]
  | kv' :: m => if lexLe kv.1.data kv'.1.data then kv :: kv' :: m else kv' :: keyInsert kv m

def keySort : JObj → JObj
  | [] => []
  | kv :: m => keyInsert kv (keySort m)

mutual

/-- Sort every object's keys, recursively. -/
def sortKeysDeep : JValue → JValue
  | .null => .null
  | .bool b => .bool b
  | .num q => .num q
  | .str s => .str s
  | .arr xs => .arr (sortKeysDeepList xs)
  | .obj m => .obj (keySort (sortKeysDeepObj m))

def sortKeysDeepList : List JValue → List JValue
  | [] => []
  | v :: vs => sortKeysDeep v :: sortKeysDeepList vs

def sortKeysDeepObj : List (String × JValue) → List (String × JValue)
  | [] => []
  | (k, v) :: m => (k, sortKeysDeep v) :: sortKeysDeepObj m

end

mutual

/-- JSON serialization (modulo whitespace and string escaping, which no
configuration routed through the hash exercises). -/
def serialize : JValue → String
  | .null => "null"
  | .bool b => if b then "true" else "false"
  | .num q => toString q
  | .str s => "\"" ++ s ++ "\""
  | .arr xs => "[" ++ serializeList xs ++ "]"
  | .obj m => "\x7b" ++ serializeObj m ++ "\x7d"

def serializeList : List JValue → String
  | [] => ""
  | [v] => serialize v
  | v :: vs => serialize v ++ ", " ++ serializeList vs

def serializeObj : List (String × JValue) → String
  | [] => ""
  | [(k, v)] => "\"" ++ k ++ "\": " ++ serialize v
  | (k, v) :: m => "\"" ++ k ++ "\": " ++ serialize v ++ ", " ++ serializeObj m

end

/-- `compute_config_hash` (run_pipeline.py lines 93-96); see the note above
on modelling the MD5 digest by the canonical serialization. -/
def compute_config_hash (config : JValue) : String :=
  serialize (sortKeysDeep config)

/-- Python `str()` of a JSON value, as interpolated into command-line
f-strings.  Scalars follow Python exactly; containers are rendered with
JSON syntax rather than Python `repr` quoting, and non-integral rationals
render as fractions — in every claim the rendered strings are only compared
with fixed script-name literals, never parsed or reproduced. -/
def JValue.pyStr : JValue → String
  | .null => "None"
  | .bool b => if b then "True" else "False"
  | .num q => toString q
  | .str s => s
  | .arr xs => "[" ++ serializeList xs ++ "]"
  | .obj m => "\x7b" ++ serializeObj m ++ "\x7d"

/-!
## `config_loader.load_config` (src/config_loader.py lines 14-116)

The file system is abstracted into what the `try` block observes:
the file is absent (`FileNotFoundError`, the only exception the source
catches), present but not valid JSON (`json.load` raises
`json.JSONDecodeError`, which propagates), or present and parsed into a
document.  All three recognized schema generations are JSON objects, and
the document is embedded as one.
-/

inductive LoadInput : Type where
  /-- `open` raises `FileNotFoundError`. -/
  | absent : LoadInput
  /-- `json.load` raises `json.JSONDecodeError`; the source does not catch
  it. -/
  | malformed : LoadInput
  /-- `json.load` returns this document. -/
  | parsed : JObj → LoadInput

/-- The built-in default configuration document
(src/config_loader.py lines 63-116). -/
def default_config : JValue :=
  .obj
    [("global", .obj
        [("directories", .obj
            [("chai_fasta", .str "CHAI_FASTA"),
             ("boltz_yaml", .str "BOLTZ_YAML"),
             ("chai_output", .str "OUTPUT/CHAI"),
             ("boltz_output", .str "OUTPUT/BOLTZ"),
             ("pse_files", .str "PSE_FILES"),
             ("plots", .str "plots"),
             ("csv", .str "csv")]),
         ("templates", .obj
            [("default_template", .str "KOr_w_momSalB.cif"),
             ("model_idx", .num 4)]),
         ("visualization", .obj
            [("rmsd_vmin", .num (2/10)),
             ("rmsd_vmax", .num (62/10))])]),
     ("prediction_runs", .arr
        [.obj
           [("id", .str "standard"),
            ("description", .str "Standard run without MSA"),
            ("enabled", .bool true),
            ("methods", .obj
               [("use_chai", .bool true),
                ("use_boltz", .bool true),
                ("use_msa", .bool false),
                ("use_msa_dir", .bool false)])],
         .obj
           [("id", .str "with_msa"),
            ("description", .str "Run with MSA enabled"),
            ("enabled", .bool true),
            ("methods", .obj
               [("use_chai", .bool true),
                ("use_boltz", .bool true),
                ("use_msa", .bool true),
                ("use_msa_dir", .bool false)])]]),
     ("analysis_runs", .arr
        [.obj
           [("id", .str "whole_protein"),
            ("description", .str "Standard whole protein analysis"),
            ("enabled", .bool true),
            ("source_predictions", .arr [.str "standard", .str "with_msa"]),
            ("analysis_type", .str "whole_protein")]])]

/-- The id of every configuration entry whose `enabled` flag (default
true) is truthy:
`[cfg["id"] for cfg in config["configurations"] if cfg.get("enabled", True)]`.
Elements must be dicts (`.get`) carrying an `"id"` key (indexing). -/
def enabledIds : List JValue → Except String (List JValue)
  | [] => .ok []
  | cfg :: rest => do
      let en ← pyGet cfg "enabled" (.bool true)
      if en.truthy then
        let i ← pyIndex cfg "id"
        let is ← enabledIds rest
        .ok (i :: is)
      else
        enabledIds rest

/-- The analysis run synthesized by the intermediate-format migration
(src/config_loader.py lines 29-38). -/
def synthesizedAnalysisRun (sources : List JValue) : JValue :=
  .obj
    [("id", .str "whole_protein"),
     ("description", .str "Standard whole protein analysis"),
     ("enabled", .bool true),
     ("source_predictions", .arr sources),
     ("analysis_type", .str "whole_protein")]

/-- `load_config` (src/config_loader.py lines 14-116). -/
def load_config (inp : LoadInput) : Except String JValue :=
  match inp with
  | .absent => .ok default_config
  | .malformed => .error "json.JSONDecodeError"
  | .parsed config =>
      if JObj.hasKey config "global" && JObj.hasKey config "prediction_runs" then
        .ok (.obj config)
      else if JObj.hasKey config "global" && JObj.hasKey config "configurations" then do
        let globalV :=
          (JObj.lookup config "global").getD .null
        let configurations ← pyIndex (.obj config) "configurations"
        let cfgs ← pyIter configurations
        let sources ← enabledIds cfgs
        .ok (.obj
          [("global", globalV),
           ("prediction_runs", configurations),
           ("analysis_runs", .arr [synthesizedAnalysisRun sources])])
      else
        .ok (.obj
          [("global", .obj config),
           ("prediction_runs", .arr
              [.obj
                 [("id", .str "default"),
                  ("description", .str "Default configuration"),
                  ("enabled", .bool true),
                  ("methods", (JObj.lookup config "methods").getD (.obj []))]]),
           ("analysis_runs", .arr
              [.obj
                 [("id", .str "whole_protein"),
                  ("description", .str "Standard whole protein analysis"),
                  ("enabled", .bool true),
                  ("source_predictions", .arr [.str "default"]),
                  ("analysis_type", .str "whole_protein")]])])

/-!
## Run selection (src/config_loader.py lines 165-253)
-/

/-- `[run for run in runs if run.get("id") in id_list]`; `run.get` requires
each run to be a dict, and `x in id_list` compares the JSON value with each
string of the comma-split CLI list. -/
def filterById (runs : List JValue) (ids : List String) : Except String (List JValue) :=
  match runs with
  | [] => .ok []
  | r :: rest => do
      let i ← pyGet r "id" .null
      let keep := ids.any fun s => i = .str s
      let rs ← filterById rest ids
      .ok (if keep then r :: rs else rs)

/-- `[run for run in runs if run.get("enabled", True)]`. -/
def filterEnabled (runs : List JValue) : Except String (List JValue) :=
  match runs with
  | [] => .ok []
  | r :: rest => do
      let en ← pyGet r "enabled" (.bool true)
      let rs ← filterEnabled rest
      .ok (if en.truthy then r :: rs else rs)

/-- `get_enabled_prediction_runs` (src/config_loader.py lines 165-183);
`get_enabled_analysis_runs` (lines 185-203) is the same function applied to
the `analysis_runs` key, so both are embedded once over the key name. -/
def get_enabled_runs (config : JValue) (key : String) (idsArg : Option String) :
    Except String (List JValue) := do
  let runsV ← pyGet config key (.arr [])
  let runs ← pyIter runsV
  if truthyOptStr idsArg then
    let idList := (idsArg.getD "").splitOn ","
    let filtered ← filterById runs idList
    if filtered.isEmpty then
      filterEnabled runs
    else
      .ok filtered
  else
    filterEnabled runs

/-- `get_motif_definition` (src/config_loader.py lines 205-215). -/
def get_motif_definition (config : JValue) (motif_id : JValue) :
    Except String (Option JValue) := do
  let g ← pyGet config "global" (.obj [])
  let motifsV ← pyGet g "motifs" (.obj [])
  let defsV ← pyGet motifsV "definitions" (.arr [])
  let motifs ← pyIter defsV
  findMotif motifs
where
  findMotif : List JValue → Except String (Option JValue)
    | [] => .ok none
    | m :: rest => do
        let i ← pyGet m "id" .null
        if i = motif_id then .ok (some m) else findMotif rest

/-- `PurePosixPath.is_absolute`: the path starts with `/`. -/
def pyIsAbsolute (s : String) : Bool :=
  s.data.head? = some '/'

/-- `Path(dir) / rel` on string paths (redundant-separator normalization
performed by `pathlib` is not modelled; no claim compares joined paths
containing redundant separators). -/
def pathJoin (dir rel : String) : String :=
  dir ++ "/" ++ rel

/-- `get_motif_template` (src/config_loader.py lines 217-241).  Returns
`None` when the motif is not found, is falsy, or has no `"template"` key;
`Path(...)` requires the template value to be a string. -/
def get_motif_template (config : JValue) (motif_id : JValue)
    (templates_dir : Option String) : Except String (Option String) := do
  let md ← get_motif_definition config motif_id
  match md with
  | none => .ok none
  | some motif_def =>
      if !motif_def.truthy then .ok none
      else do
        let hk ← pyHasKey motif_def "template"
        if !hk then .ok none
        else do
          let tv ← pyIndex motif_def "template"
          match tv with
          | .str t =>
              if truthyOptStr templates_dir && !pyIsAbsolute t then
                .ok (some (pathJoin (templates_dir.getD "") t))
              else
                .ok (some t)
          | _ => .error "TypeError: template is not a path string"

/-- `get_prediction_run_by_id` (src/config_loader.py lines 243-253). -/
def get_prediction_run_by_id (config : JValue) (prediction_id : JValue) :
    Except String (Option JValue) := do
  let runsV ← pyGet config "prediction_runs" (.arr [])
  let runs ← pyIter runsV
  findRun runs
where
  findRun : List JValue → Except String (Option JValue)
    | [] => .ok none
    | r :: rest => do
        let i ← pyGet r "id" .null
        if i = prediction_id then .ok (some r) else findRun rest

/-!
## CLI arguments (run_pipeline.parse_arguments and
config_loader.add_common_args)

`argparse` stores every option under its underscore-spelled destination
name (`--chai-fasta` becomes attribute `chai_fasta`).  `Args` carries one
field per destination registered by `parse_arguments`
(run_pipeline.py lines 65-91) and `add_common_args`
(src/config_loader.py lines 286-382, called with no exclusions).  Every
`store_true`/`store_false` pair leaves a `Bool`; `type=str` options with no
default are `Option String`; `type=int` is `Option Int`; `action=append`
with `default=[]` is `List String`. -/
structure Args : Type where
  config : String := "pipeline_config.json"
  no_archive : Bool := false
  delete_outputs : Bool := false
  skip_step : List String := []
  resume : Bool := false
  force_resume : Bool := false
  state_file : String := "pipeline_state.json"
  clean_state : Bool := false
  chai_fasta : Option String := none
  boltz_yaml : Option String := none
  chai_output : Option String := none
  boltz_output : Option String := none
  pse_files : Option String := none
  plots : Option String := none
  csv : Option String := none
  use_chai : Bool := false
  use_boltz : Bool := false
  use_msa : Bool := false
  use_msa_dir : Bool := false
  template : Option String := none
  model_idx : Option Int := none
  prediction_runs : Option String := none
  analysis_runs : Option String := none
  enable_prediction : List String := []
  disable_prediction : List String := []
  enable_analysis : List String := []
  disable_analysis : List String := []
  configs : Option String := none
  enable_config : List String := []
  disable_config : List String := []
  motif : Option String := none
  quiet : Bool := false
  deriving Repr, DecidableEq

def optStrVal : Option String → JValue
  | none => .null
  | some s => .str s

def strListVal (l : List String) : JValue :=
  .arr (l.map .str)

/-- `vars(args)`: the argument namespace as a dictionary keyed by the
underscore-spelled destination names, in registration order. -/
def argsDict (a : Args) : JObj :=
  [("config", .str a.config),
   ("no_archive", .bool a.no_archive),
   ("delete_outputs", .bool a.delete_outputs),
   ("skip_step", strListVal a.skip_step),
   ("resume", .bool a.resume),
   ("force_resume", .bool a.force_resume),
   ("state_file", .str a.state_file),
   ("clean_state", .bool a.clean_state),
   ("chai_fasta", optStrVal a.chai_fasta),
   ("boltz_yaml", optStrVal a.boltz_yaml),
   ("chai_output", optStrVal a.chai_output),
   ("boltz_output", optStrVal a.boltz_output),
   ("pse_files", optStrVal a.pse_files),
   ("plots", optStrVal a.plots),
   ("csv", optStrVal a.csv),
   ("use_chai", .bool a.use_chai),
   ("use_boltz", .bool a.use_boltz),
   ("use_msa", .bool a.use_msa),
   ("use_msa_dir", .bool a.use_msa_dir),
   ("template", optStrVal a.template),
   ("model_idx", match a.model_idx with | none => .null | some n => .num n),
   ("prediction_runs", optStrVal a.prediction_runs),
   ("analysis_runs", optStrVal a.analysis_runs),
   ("enable_prediction", strListVal a.enable_prediction),
   ("disable_prediction", strListVal a.disable_prediction),
   ("enable_analysis", strListVal a.enable_analysis),
   ("disable_analysis", strListVal a.disable_analysis),
   ("configs", optStrVal a.configs),
   ("enable_config", strListVal a.enable_config),
   ("disable_config", strListVal a.disable_config),
   ("motif", optStrVal a.motif),
   ("quiet", .bool a.quiet)]

/-- `key.replace('_', '-')`: with single-character arguments, `str.replace`
is a character-wise substitution. -/
def dashify (s : String) : String :=
  String.mk (s.data.map fun c => if c = '_' then '-' else c)

/-!
`update_config_from_args` (src/config_loader.py lines 255-284).
Keys of `directories` and `methods` are looked up in `args_dict` under
their dash-spelled form (the directories update additionally requires a
non-`None` value, the methods update does not); the `templates` section is
updated from `model_idx` and `template`.  A present but non-mapping
`directories`/`methods`/`templates` value raises `TypeError` in the source
when iterated/assigned; it is embedded as an error outright (the source
would only reach some of the raises lazily).
-/

/-- One `directories` entry after the update loop: the dash-spelled key is
looked up in `args_dict` and, when bound to a non-`None` value, replaces
the entry's value. -/
def updateDirEntry (a : Args) (kv : String × JValue) : String × JValue :=
  match JObj.lookup (argsDict a) (dashify kv.1) with
  | some av => if av ≠ .null then (kv.1, av) else kv
  | none => kv

/-- One `methods` entry after the update loop: as for directories but with
no `is not None` check. -/
def updateMethodEntry (a : Args) (kv : String × JValue) : String × JValue :=
  match JObj.lookup (argsDict a) (dashify kv.1) with
  | some av => (kv.1, av)
  | none => kv

/-- The `# Update directories` block (src/config_loader.py lines 260-265). -/
def updateDirs (config : JObj) (a : Args) : Except String JObj :=
  match JObj.lookup config "directories" with
  | none => .ok config
  | some (.obj d) =>
      .ok (JObj.setKey config "directories" (.obj (d.map (updateDirEntry a))))
  | some _ => .error "TypeError: directories is not a mapping"

/-- The `# Update methods` block (src/config_loader.py lines 267-272). -/
def updateMethods (config : JObj) (a : Args) : Except String JObj :=
  match JObj.lookup config "methods" with
  | none => .ok config
  | some (.obj m) =>
      .ok (JObj.setKey config "methods" (.obj (m.map (updateMethodEntry a))))
  | some _ => .error "TypeError: methods is not a mapping"

/-- The `# Update templates` block (src/config_loader.py lines 274-282). -/
def updateTemplates (config : JObj) (a : Args) : Except String JObj :=
  match JObj.lookup config "templates" with
  | none => .ok config
  | some (.obj t) =>
      let t1 := match a.model_idx with
        | some n => JObj.setKey t "model_idx" (.num n)
        | none => t
      let t2 := match a.template with
        | some s =>
            if JObj.hasKey t1 "default_template" then
              JObj.setKey t1 "default_template" (.str s)
            else if JObj.hasKey t1 "files" then
              JObj.setKey t1 "files" (.arr [.str s])
            else t1
        | none => t1
      .ok (JObj.setKey config "templates" (.obj t2))
  | some _ => .error "TypeError: templates is not a mapping"

def update_config_from_args (config : JObj) (a : Args) : Except String JObj := do
  let c1 ← updateDirs config a
  let c2 ← updateMethods c1 a
  updateTemplates c2 a

/-!
## Pipeline state (run_pipeline.py lines 98-146)

The state file holds the JSON document
`last_run / config_hash / completed_steps / failed_step / error_message`;
it is embedded as a record (a state document of any other shape is out of
scope for every claim).  Timestamps are opaque: `datetime.now().isoformat()`
is threaded in as the parameter `now`.
-/

structure PState : Type where
  last_run : Option String := none
  config_hash : Option String := none
  completed_steps : List String := []
  failed_step : Option String := none
  error_message : Option String := none
  deriving Repr, DecidableEq

/-- `read_state_file` (run_pipeline.py lines 98-120): an absent or
unreadable file yields the zero state. -/
def read_state_file : Option PState → PState
  | none => {}
  | some s => s

/-- `update_state` (run_pipeline.py lines 130-146). -/
def update_state (state : PState) (step_id : String) (success : Bool)
    (error_message : Option String) (now : String) : PState :=
  let state := { state with last_run := some now }
  if success then
    let state :=
      if state.completed_steps.contains step_id then state
      else { state with completed_steps := state.completed_steps ++ [step_id] }
    if state.failed_step = some step_id then
      { state with failed_step := none, error_message := none }
    else state
  else
    { state with failed_step := some step_id, error_message := error_message }

/-!
## Execution context

External processes are the only nondeterminism: a `World` fixes the exit
status of every command the orchestrator could spawn.  `Ctx` carries the
Python locals `state_file` and `state`, the sequence of state-file writes
(`write_state_file` never fails in the model; the source prints and ignores
write errors), and the invoked commands in order.
-/

structure World : Type where
  /-- `true` when `subprocess.run(command, check=True)` exits with 0. -/
  run : List String → Bool

structure Ctx : Type where
  state_file : Option String := none
  state : Option PState := none
  writes : List PState := []
  invoked : List (List String) := []
  deriving Repr, DecidableEq

/-- Python `if state_file and state:`: the path is not `None` and not
empty, and the state dict is present (a state dict is a non-empty dict,
hence truthy). -/
def Ctx.tracking (ctx : Ctx) : Bool :=
  truthyOptStr ctx.state_file && ctx.state.isSome

/-- `write_state_file(state_file, state)` (run_pipeline.py lines 122-128). -/
def Ctx.write (ctx : Ctx) (st : PState) : Ctx :=
  { ctx with writes := ctx.writes ++ [st] }

/-- Replace the in-memory state and persist it. -/
def Ctx.setAndWrite (ctx : Ctx) (st : PState) : Ctx :=
  { ctx with state := some st, writes := ctx.writes ++ [st] }

/-- The state-file side effect of `log_message(msg, level="ERROR",
state_file=..., state=...)` (run_pipeline.py lines 148-159): the in-memory
`error_message` is overwritten and the state is persisted.  Calls that omit
`state_file`/`state` have no state effect and are not routed through this
function. -/
def log_error (msg : String) (ctx : Ctx) : Ctx :=
  if ctx.tracking then
    match ctx.state with
    | some st => ctx.setAndWrite { st with error_message := some msg }
    | none => ctx
  else ctx

/-- `run_step` (run_pipeline.py lines 161-187).  The text of
`CalledProcessError` is abbreviated; it is stored, never inspected. -/
def run_step (w : World) (now : String) (command : List String)
    (description : String) (step_id : String) (ctx : Ctx) : Bool × Ctx :=
  let ctx := { ctx with invoked := ctx.invoked ++ [command] }
  if w.run command then
    let ctx :=
      if ctx.tracking then
        match ctx.state with
        | some st => ctx.setAndWrite (update_state st step_id true none now)
        | none => ctx
      else ctx
    (true, ctx)
  else
    let emsg := "Error in " ++ description ++ ": CalledProcessError"
    let ctx := log_error emsg ctx
    let ctx :=
      if ctx.tracking then
        match ctx.state with
        | some st => ctx.setAndWrite (update_state st step_id false (some emsg) now)
        | none => ctx
      else ctx
    (false, ctx)

/-- One pipeline step: a stable identifier, an argv vector and a human
description. -/
structure Step : Type where
  id : String
  command : List String
  description : String
  deriving Repr, DecidableEq

/-- `step["id"].split("-")[0] + "-" + step["id"].split("-")[1]`
(run_pipeline.py line 525).  `pySplitDash` below models `str.split("-")`;
Python raises `IndexError` on fewer than two parts, which cannot happen for
the step ids built by `run_motif_analysis` (each contains two dashes), so
out-of-range access defaults are unreachable. -/
def splitDash : List Char → List (List Char)
  | [] => [[]]
  | c :: cs =>
      let r := splitDash cs
      if c = '-' then [] :: r
      else
        match r with
        | [] => [[c]]
        | g :: gs => (c :: g) :: gs

def pySplitDash (s : String) : List String :=
  (splitDash s.data).map String.mk

def baseStepId (id : String) : String :=
  let parts := pySplitDash id
  (parts.getD 0 "") ++ "-" ++ (parts.getD 1 "")

/-- `state` is consulted for the in-memory completion ledger
(`step["id"] in state["completed_steps"]`). -/
def completedOf (ctx : Ctx) : List String :=
  match ctx.state with
  | some st => st.completed_steps
  | none => []

/-- The step loop shared verbatim by `run_prediction_steps` (lines
258-273), `run_whole_protein_analysis` (lines 371-386) and
`run_motif_analysis` (lines 523-539).  The only textual difference in the
source is that the motif loop matches the skip list against the recomposed
base id; `useBase` selects that variant. -/
def exec_steps (w : World) (now : String) (a : Args) (useBase : Bool) :
    List Step → Ctx → Bool × Ctx
  | [], ctx => (true, ctx)
  | s :: rest, ctx =>
      let skipKey := if useBase then baseStepId s.id else s.id
      if a.skip_step.contains skipKey then
        exec_steps w now a useBase rest ctx
      else if a.resume && ctx.state.isSome && (completedOf ctx).contains s.id then
        exec_steps w now a useBase rest ctx
      else
        let (ok, ctx') := run_step w now s.command s.description s.id ctx
        if ok then
          exec_steps w now a useBase rest ctx'
        else
          (false, log_error ("Pipeline failed at step: " ++ s.id) ctx')

/-!
## Step-graph builders and per-run drivers (run_pipeline.py lines 189-559)
-/

/-- The `--no-chai`/`--no-boltz`/`--no-msa` options appended to every
analysis command (run_pipeline.py lines 299-304 and analogues):
`if not config.get("methods", {}).get("use_chai", True): append` etc. -/
def methodFlags (config : JValue) : Except String (List String) := do
  let m1 ← pyGet config "methods" (.obj [])
  let uc ← pyGet m1 "use_chai" (.bool true)
  let m2 ← pyGet config "methods" (.obj [])
  let ub ← pyGet m2 "use_boltz" (.bool true)
  let m3 ← pyGet config "methods" (.obj [])
  let um ← pyGet m3 "use_msa" (.bool true)
  pure ((if !uc.truthy then ["--no-chai"] else [])
    ++ (if !ub.truthy then ["--no-boltz"] else [])
    ++ (if !um.truthy then ["--no-msa"] else []))

def quietFlag (a : Args) : List String :=
  if a.quiet then ["--quiet"] else []

/-- `run_prediction_steps` (run_pipeline.py lines 189-277). -/
def run_prediction_steps (w : World) (now : String) (a : Args)
    (config : JValue) (ctx : Ctx) : Except String (Bool × Ctx) := do
  let methods ← pyIndex config "methods"
  let useChai ← pyIndex methods "use_chai"
  let chaiSteps ←
    if useChai.truthy then do
      let dirs1 ← pyIndex config "directories"
      let inDir ← pyIndex dirs1 "chai_fasta"
      let dirs2 ← pyIndex config "directories"
      let outDir ← pyIndex dirs2 "chai_output"
      let useMsa ← pyIndex methods "use_msa"
      let msaFlags ←
        if useMsa.truthy then do
          let useMsaDir ← pyIndex methods "use_msa_dir"
          pure (["--use-msa"] ++ (if useMsaDir.truthy then ["--use-msa-dir"] else []))
        else pure []
      pure
        [Step.mk "chai-fasta" ["python", "src/generate_chai_fasta.py"]
           "Generating CHAI FASTA files",
         Step.mk "chai-run"
           (["python", "src/run_chai_apptainer.py",
             "--input=" ++ inDir.pyStr, "--output=" ++ outDir.pyStr]
             ++ msaFlags ++ quietFlag a)
           "Running CHAI predictions"]
    else pure []
  let useBoltz ← pyIndex methods "use_boltz"
  let boltzSteps ←
    if useBoltz.truthy then do
      let dirs1 ← pyIndex config "directories"
      let inDir ← pyIndex dirs1 "boltz_yaml"
      let dirs2 ← pyIndex config "directories"
      let outDir ← pyIndex dirs2 "boltz_output"
      let useMsa ← pyIndex methods "use_msa"
      let msaFlags := if useMsa.truthy then ["--use-msa"] else []
      pure
        [Step.mk "boltz-yaml" ["python", "src/generate_boltz_yaml.py"]
           "Generating Boltz YAML files",
         Step.mk "boltz-run"
           (["python", "src/run_boltz_apptainer.py",
             "--input=" ++ inDir.pyStr, "--output=" ++ outDir.pyStr]
             ++ msaFlags ++ quietFlag a)
           "Running BOLTZ predictions"]
    else pure []
  pure (exec_steps w now a false (chaiSteps ++ boltzSteps) ctx)

/-- `run_whole_protein_analysis` (run_pipeline.py lines 279-390). -/
def run_whole_protein_analysis (w : World) (now : String) (a : Args)
    (config : JValue) (ctx : Ctx) : Except String (Bool × Ctx) := do
  let tmpl ← pyGet config "templates" (.obj [])
  let modelIdx ← pyGet tmpl "model_idx" (.num 4)
  let dirs1 ← pyIndex config "directories"
  let chaiOut ← pyIndex dirs1 "chai_output"
  let dirs2 ← pyIndex config "directories"
  let boltzOut ← pyIndex dirs2 "boltz_output"
  let dirs3 ← pyIndex config "directories"
  let pseFiles ← pyIndex dirs3 "pse_files"
  let tFlag := match a.template with
    | some t => if t != "" then ["--template=" ++ t] else []
    | none => []
  let mFlags ← methodFlags config
  let combineCmd :=
    ["python", "src/combine_cif_files.py",
     "--chai-output=" ++ chaiOut.pyStr, "--boltz-output=" ++ boltzOut.pyStr,
     "--pse-files=" ++ pseFiles.pyStr, "--model-idx=" ++ modelIdx.pyStr]
      ++ tFlag ++ mFlags ++ quietFlag a
  let dirs4 ← pyIndex config "directories"
  let plots ← pyIndex dirs4 "plots"
  let mFlags2 ← methodFlags config
  let rmsdCmd :=
    ["python", "src/plot_rmsd_heatmap.py",
     "--pse-files=" ++ pseFiles.pyStr, "--plots=" ++ plots.pyStr]
      ++ mFlags2 ++ quietFlag a
  let mFlags3 ← methodFlags config
  let plddtCmd :=
    ["python", "src/plot_plddt_heatmap.py",
     "--chai-output=" ++ chaiOut.pyStr, "--boltz-output=" ++ boltzOut.pyStr,
     "--plots=" ++ plots.pyStr]
      ++ mFlags3 ++ quietFlag a
  let steps :=
    [Step.mk "combine-cif" combineCmd "Combining CIF files and creating PyMOL sessions",
     Step.mk "rmsd-plot" rmsdCmd "Generating RMSD heatmaps",
     Step.mk "plddt-plot" plddtCmd "Generating pLDDT heatmaps"]
  pure (exec_steps w now a false steps ctx)

/-- `",".join(value)` over a JSON value (a list must hold strings; a string
joins its characters; a dict joins its keys). -/
def commaJoin : List String → String
  | [] => ""
  | [s] => s
  | s :: rest => s ++ "," ++ commaJoin rest

def joinStrs : List JValue → Except String (List String)
  | [] => .ok []
  | .str s :: rest => do
      let r ← joinStrs rest
      .ok (s :: r)
  | _ :: _ => .error "TypeError: sequence item is not a string"

def pyJoinComma (v : JValue) : Except String String := do
  let items ← pyIter v
  let strs ← joinStrs items
  pure (commaJoin strs)

/-- `needle` occurs as a leading block of `hay`. -/
def leadsWith : List Char → List Char → Bool
  | _, [] => true
  | [], _ :: _ => false
  | h :: hs, n :: ns => h == n && leadsWith hs ns

/-- Python substring containment (`needle in hay` on strings). -/
def containsChars (hay needle : List Char) : Bool :=
  leadsWith hay needle ||
    match hay with
    | [] => false
    | _ :: t => containsChars t needle

/-- `not metrics or name in metrics` (run_pipeline.py lines 468 and 486). -/
def metricsAllows (metrics : JValue) (name : String) : Except String Bool :=
  if !metrics.truthy then .ok true
  else
    match metrics with
    | .arr xs => .ok (xs.contains (.str name))
    | .str t => .ok (containsChars t.data name.data)
    | .obj m => .ok (JObj.hasKey m name)
    | _ => .error "TypeError: argument of in is not a container"

/-- `Path(value)` and `path / value` require a string operand; anything
else raises `TypeError`. -/
def pyStrOperand (err : String) : JValue → Except String String
  | .str s => .ok s
  | _ => .error err

/-- `if "template" in motif_def: append f"--template={...}"`
(run_pipeline.py lines 423-425): the guard makes the subsequent indexing
infallible, so the pair is embedded as one total function of the motif
definition (which must be a mapping for `in`). -/
def motifTemplateFlag : JValue → Except String (List String)
  | .obj m =>
      .ok (match JObj.lookup m "template" with
        | some tv => ["--template=" ++ tv.pyStr]
        | none => [])
  | _ => .error "TypeError: argument of in is not a mapping"

/-- `if "molecules" in motif_def and motif_def["molecules"]:` followed by
`",".join(...)` (run_pipeline.py lines 427-430). -/
def motifMoleculesFlag : JValue → Except String (List String)
  | .obj m =>
      (match JObj.lookup m "molecules" with
        | some mv =>
            if mv.truthy then do
              let ms ← pyJoinComma mv
              .ok ["--molecules=" ++ ms]
            else .ok []
        | none => .ok [])
  | _ => .error "TypeError: argument of in is not a mapping"

/-- `if full_config: get_motif_definition(full_config, motif_id) else:
get_motif_definition(config, motif_id)` (run_pipeline.py lines 397-401). -/
def getMotifSource (fullConfig config motifId : JValue) :
    Except String (Option JValue) :=
  if fullConfig.truthy then get_motif_definition fullConfig motifId
  else get_motif_definition config motifId

/-- `run_motif_analysis` (run_pipeline.py lines 392-543).  Directory
creation (`mkdir`) has no observable effect in the model. -/
def run_motif_analysis (w : World) (now : String) (a : Args)
    (config : JValue) (ctx : Ctx) (runId motifId metrics fullConfig : JValue) :
    Except String (Bool × Ctx) := do
  let md ← getMotifSource fullConfig config motifId
  if !truthyOpt md then
    -- `log_message(..., level="ERROR", quiet=args.quiet)`: no state effect
    pure (false, ctx)
  else do
    let motifDef := md.getD .null
    let dirs ← pyIndex config "directories"
    let pseV ← pyIndex dirs "pse_files"
    let pseBase ← pyStrOperand "TypeError: Path argument is not a string" pseV
    let runIdStr ← pyStrOperand "TypeError: unsupported path-join operand" runId
    let runDir := pathJoin pseBase runIdStr
    let dirs2 ← pyIndex config "directories"
    let chaiOut ← pyIndex dirs2 "chai_output"
    let dirs3 ← pyIndex config "directories"
    let boltzOut ← pyIndex dirs3 "boltz_output"
    let cfgModelIdx ← pyGet config "model_idx" (.num 4)
    let modelIdx ← pyGet motifDef "model_idx" cfgModelIdx
    let tFlag ← motifTemplateFlag motifDef
    let molFlag ← motifMoleculesFlag motifDef
    let mFlags ← methodFlags config
    let mId := motifId.pyStr
    let combineCmd :=
      ["python", "src/combine_cif_files.py",
       "--chai-output=" ++ chaiOut.pyStr, "--boltz-output=" ++ boltzOut.pyStr,
       "--pse-files=" ++ runDir, "--model-idx=" ++ modelIdx.pyStr]
        ++ tFlag ++ molFlag ++ mFlags ++ quietFlag a
    let alignCmd :=
      ["python", "src/motif_alignment.py",
       "--motif=" ++ mId, "--pse-files=" ++ runDir] ++ quietFlag a
    let rmsdOn ← metricsAllows metrics "rmsd"
    let rmsdSteps :=
      if rmsdOn then
        [Step.mk ("motif-rmsd-" ++ mId)
           (["python", "src/plot_motif_rmsd.py",
             "--motif=" ++ mId, "--pse-files=" ++ runDir] ++ quietFlag a)
           ("Generating motif-specific RMSD heatmap for " ++ mId)]
      else []
    let plddtOn ← metricsAllows metrics "plddt"
    let plddtSteps :=
      if plddtOn then
        [Step.mk ("motif-plddt-extract-" ++ mId)
           (["python", "src/extract_motif_plddt.py",
             "--motif=" ++ mId, "--pse-files=" ++ runDir] ++ quietFlag a)
           ("Extracting motif-specific pLDDT values for " ++ mId),
         Step.mk ("motif-plddt-plot-" ++ mId)
           (["python", "src/plot_motif_plddt.py",
             "--motif=" ++ mId, "--pse-files=" ++ runDir] ++ quietFlag a)
           ("Generating motif-specific pLDDT heatmap for " ++ mId)]
      else []
    let steps :=
      [Step.mk ("combine-cif-" ++ mId) combineCmd
         ("Creating base PSE files for motif " ++ mId),
       Step.mk ("motif-align-" ++ mId) alignCmd
         ("Performing motif-specific alignment for " ++ mId)]
        ++ rmsdSteps ++ plddtSteps
    pure (exec_steps w now a true steps ctx)

/-- `run_analysis_steps` (run_pipeline.py lines 545-559).  The two failure
logs here pass no state, so they have no state effect. -/
def run_analysis_steps (w : World) (now : String) (a : Args)
    (config fullConfig : JValue) (ctx : Ctx)
    (runId analysisType motifId metrics : JValue) :
    Except String (Bool × Ctx) := do
  if analysisType = .str "whole_protein" then
    run_whole_protein_analysis w now a config ctx
  else if analysisType = .str "motif" then do
    let md ← get_motif_definition fullConfig motifId
    if !truthyOpt md then
      pure (false, ctx)
    else
      run_motif_analysis w now a config ctx runId motifId metrics fullConfig
  else
    pure (false, ctx)

/-!
## `main` (run_pipeline.py lines 561-745)
-/

/-- `for cfg in runs: if cfg.get("id") == config_id: cfg["enabled"] = flag`
for one identifier (run_pipeline.py lines 569-605). -/
def applyOne (runs : List JValue) (id : String) (en : Bool) :
    Except String (List JValue) :=
  match runs with
  | [] => .ok []
  | r :: rest => do
      let i ← pyGet r "id" .null
      if i = .str id then do
        let m ← asObj r
        let rs ← applyOne rest id en
        .ok (JValue.obj (JObj.setKey m "enabled" (.bool en)) :: rs)
      else do
        let rs ← applyOne rest id en
        .ok (r :: rs)

def applyAll (runs : List JValue) (ids : List String) (en : Bool) :
    Except String (List JValue) :=
  match ids with
  | [] => .ok runs
  | i :: rest => do
      let runs' ← applyOne runs i en
      applyAll runs' rest en

/-- One `if args.X: for id in args.X: for run in full_config.get(key, []):`
block; the in-place mutation of the run dicts is embedded by writing the
updated run list back under its key (absent key: `.get` returned a fresh
empty list, nothing to mutate). -/
def applyRunOverrides (fc : JValue) (key : String) (ids : List String)
    (en : Bool) : Except String JValue :=
  if ids.isEmpty then .ok fc
  else
    match fc with
    | .obj m =>
        match JObj.lookup m key with
        | none => .ok fc
        | some (.arr runs) => do
            let runs' ← applyAll runs ids en
            .ok (.obj (JObj.setKey m key (.arr runs')))
        | some _ => .error "AttributeError: run entry has no attribute get"
    | _ => .error "AttributeError: config has no attribute get"

/-- The configuration after `load_config` and the six CLI enable/disable
override blocks (run_pipeline.py lines 566-605). -/
def resolved_config (inp : LoadInput) (a : Args) : Except String JValue := do
  let fc0 ← load_config inp
  let fc1 ← applyRunOverrides fc0 "prediction_runs" a.enable_config true
  let fc2 ← applyRunOverrides fc1 "prediction_runs" a.disable_config false
  let fc3 ← applyRunOverrides fc2 "prediction_runs" a.enable_prediction true
  let fc4 ← applyRunOverrides fc3 "prediction_runs" a.disable_prediction false
  let fc5 ← applyRunOverrides fc4 "analysis_runs" a.enable_analysis true
  applyRunOverrides fc5 "analysis_runs" a.disable_analysis false

/-- `source_run = None; for pred_id in ids: source_run = get_...; if
source_run: break` (run_pipeline.py lines 713-717).  The source leaves the
last falsy lookup in `source_run` when no truthy run is found; the guard
`if not source_run` then behaves identically to `None`, and a falsy value
is never used afterwards, so the embedding returns `none` in that case. -/
def findFirstSource (fc : JValue) : List JValue → Except String (Option JValue)
  | [] => .ok none
  | p :: ps => do
      let r ← get_prediction_run_by_id fc p
      if truthyOpt r then .ok r else findFirstSource fc ps

/-- The prediction-run loop (run_pipeline.py lines 674-689):
`prediction_success` starts true and is cleared by any failing run; the
loop continues over the remaining runs. -/
def predictionLoop (w : World) (now : String) (a : Args) (fc : JValue) :
    List JValue → Ctx → Except String (Bool × Ctx)
  | [], ctx => .ok (true, ctx)
  | pr :: rest, ctx => do
      let runIdV ← pyGet pr "id" (.str "unknown")
      let gl ← pyGet fc "global" (.obj [])
      -- `deep_merge` copies the base and assigns `override.items()` into
      -- it: both must be mappings (a non-mapping raises `TypeError`; the
      -- vacuous empty-override case is not distinguished)
      let glObj ← asObj gl
      let prObj ← asObj pr
      let merged ← update_config_from_args (deep_merge glObj prObj) a
      let res ← run_prediction_steps w now a (.obj merged) ctx
      let ctx2 :=
        if res.1 then res.2
        else log_error ("Pipeline failed for prediction run: " ++ runIdV.pyStr) res.2
      let r ← predictionLoop w now a fc rest ctx2
      .ok (res.1 && r.1, r.2)

/-- The analysis-run loop (run_pipeline.py lines 700-737): a run without
truthy `source_predictions` or without a resolvable source prediction run
is logged (without any state effect) and skipped; a failing run clears
`analysis_success` and the loop continues. -/
def analysisLoop (w : World) (now : String) (a : Args) (fc : JValue) :
    List JValue → Ctx → Except String (Bool × Ctx)
  | [], ctx => .ok (true, ctx)
  | ar :: rest, ctx => do
      let runIdV ← pyGet ar "id" (.str "unknown")
      let sourceIdsV ← pyGet ar "source_predictions" (.arr [])
      if !sourceIdsV.truthy then
        analysisLoop w now a fc rest ctx
      else do
        let sourceIds ← pyIter sourceIdsV
        let sourceRun ← findFirstSource fc sourceIds
        match sourceRun with
        | none => analysisLoop w now a fc rest ctx
        | some sr => do
            let gl ← pyGet fc "global" (.obj [])
            let glObj ← asObj gl
            let srObj ← asObj sr
            let merged ← update_config_from_args (deep_merge glObj srObj) a
            let analysisType ← pyGet ar "analysis_type" .null
            let motifId ← pyGet ar "motif_id" .null
            let metrics ← pyGet ar "metrics" .null
            let res ← run_analysis_steps w now a (.obj merged) fc ctx
              runIdV analysisType motifId metrics
            let ctx2 :=
              if res.1 then res.2
              else log_error ("Pipeline failed for analysis run: " ++ runIdV.pyStr) res.2
            let r ← analysisLoop w now a fc rest ctx2
            .ok (res.1 && r.1, r.2)

/-- `["python", "src/archive_and_clean.py"]` plus the archive flags
(run_pipeline.py lines 650-654). -/
def archiveCommand (a : Args) : List String :=
  ["python", "src/archive_and_clean.py"]
    ++ (if a.no_archive then ["--no-archive"] else [])
    ++ (if a.delete_outputs then ["--delete-outputs"] else [])

/-- `main` from the archive step on (run_pipeline.py lines 647-745),
entered once the state-tracking initialization is done.

Note the source computes `analysis_success` in the analysis loop but never
reads it afterwards: the final `return 0 if prediction_success else 1`
(line 745) and the state-clearing guard
`if prediction_success and state_file and state` (line 740) both consult
only `prediction_success`. -/
def mainAfterState (w : World) (now : String) (a : Args) (fc : JValue)
    (ctx : Ctx) : Except String (Nat × Ctx) := do
  -- Step 1: archive previous outputs
  let archRes : Bool × Ctx :=
    if !a.resume || !(completedOf ctx).contains "archive" then
      if !a.skip_step.contains "archive" then
        run_step w now (archiveCommand a) "Archiving previous outputs" "archive" ctx
      else (true, ctx)
    else (true, ctx)
  if !archRes.1 then
    .ok (1, log_error "Failed to archive previous outputs. Exiting." archRes.2)
  else do
    let ctx1 := archRes.2
    -- Step 2: prediction runs
    let enabledPred ← get_enabled_runs fc "prediction_runs" a.prediction_runs
    if enabledPred.isEmpty then
      -- `log_message(..., level="ERROR", quiet=args.quiet)`: no state effect
      .ok (1, ctx1)
    else do
      let pres ← predictionLoop w now a fc enabledPred ctx1
      -- Step 3: analysis runs
      let enabledAna ← get_enabled_runs fc "analysis_runs" a.analysis_runs
      let ares ←
        if enabledAna.isEmpty then pure (true, pres.2)
        else analysisLoop w now a fc enabledAna pres.2
      -- `ares.1` is `analysis_success`, never read below (line 735 in the
      -- source is the last mention of the variable)
      let ctx2 := ares.2
      let ctx3 :=
        if pres.1 && ctx2.tracking then
          ctx2.setAndWrite
            { ctx2.state.getD {} with failed_step := none, error_message := none }
        else ctx2
      .ok (if pres.1 then 0 else 1, ctx3)

/-- `main` (run_pipeline.py lines 561-745).  `w` fixes external process
exit statuses, `now` the timestamp, `inp` the configuration file contents
and `stateRead` the state file contents.  Returns the process exit code
and the final execution context. -/
def main (w : World) (now : String) (a : Args) (inp : LoadInput)
    (stateRead : Option PState) : Except String (Nat × Ctx) := do
  let fc ← resolved_config inp a
  if a.resume || a.clean_state then
    -- lines 607-645: state tracking initialization
    let ctxA : Ctx :=
      { state_file := some a.state_file, state := some (read_state_file stateRead) }
    let ctxB :=
      if a.clean_state then
        ctxA.setAndWrite
          { last_run := some now, config_hash := some (compute_config_hash fc) }
      else ctxA
    let st := ctxB.state.getD {}
    if a.resume && truthyOptStr st.config_hash
        && (st.config_hash.getD "" != compute_config_hash fc)
        && !a.force_resume then
      -- resume conflict without `--force-resume`: the error is logged with
      -- no state effect and `main` returns 1 before any step
      .ok (1, ctxB)
    else
      -- line 638: the stored hash is refreshed and written back
      let st2 := ctxB.state.getD {}
      mainAfterState w now a fc
        (ctxB.setAndWrite { st2 with config_hash := some (compute_config_hash fc) })
  else
    mainAfterState w now a fc {}

/-!
## Helper lemmas on association lists
-/

theorem jobj_lookup_nil (k : String) : JObj.lookup [] k = none := rfl

theorem jobj_lookup_cons (k k' : String) (v : JValue) (m : JObj) :
    JObj.lookup ((k', v) :: m) k = if k = k' then some v else JObj.lookup m k := by
  simp only [JObj.lookup, List.lookup]
  by_cases h : k = k'
  · simp [h]
  · simp [h, beq_false_of_ne h]

theorem except_bind_ok {α β : Type} (a : α) (f : α → Except String β) :
    (Except.ok a : Except String α) >>= f = f a := rfl

theorem except_bind_error {α β : Type} (e : String) (f : α → Except String β) :
    (Except.error e : Except String α) >>= f = Except.error e := rfl

theorem lookup_setKey_self (m : JObj) (k : String) (v : JValue) :
    JObj.lookup (JObj.setKey m k v) k = some v := by
  induction m with
  | nil => simp [JObj.setKey, jobj_lookup_cons]
  | cons kv t ih =>
      cases kv with
      | mk k' v' =>
        by_cases h : k' = k
        · rw [JObj.setKey, if_pos h, jobj_lookup_cons, if_pos rfl]
        · rw [JObj.setKey, if_neg h, jobj_lookup_cons,
            if_neg (fun hh : k = k' => h hh.symm)]
          exact ih

theorem lookup_setKey_ne (m : JObj) (k q : String) (v : JValue) (h : q ≠ k) :
    JObj.lookup (JObj.setKey m k v) q = JObj.lookup m q := by
  induction m with
  | nil => simp [JObj.setKey, jobj_lookup_cons, jobj_lookup_nil, h]
  | cons kv t ih =>
      cases kv with
      | mk k' v' =>
        by_cases hk : k' = k
        · subst hk
          rw [JObj.setKey, if_pos rfl, jobj_lookup_cons, jobj_lookup_cons,
            if_neg h, if_neg h]
        · rw [JObj.setKey, if_neg hk, jobj_lookup_cons, jobj_lookup_cons, ih]

theorem lookup_eq_none_of_not_mem_keys (m : JObj) (k : String)
    (h : k ∉ m.map Prod.fst) : JObj.lookup m k = none := by
  induction m with
  | nil => rfl
  | cons kv t ih =>
      cases kv with
      | mk k' v' =>
        rw [jobj_lookup_cons]
        simp only [List.map_cons, List.mem_cons] at h
        push_neg at h
        simp [h.1, ih h.2]

theorem lookup_map_preserving (f : String × JValue → String × JValue)
    (hf : ∀ kv, (f kv).1 = kv.1) (l : JObj) (k : String) :
    JObj.lookup (l.map f) k = (JObj.lookup l k).map fun v => (f (k, v)).2 := by
  induction l with
  | nil => rfl
  | cons kv t ih =>
      cases kv with
      | mk k' v' =>
        rw [List.map_cons]
        rw [show f (k', v') = ((f (k', v')).1, (f (k', v')).2) from rfl]
        rw [jobj_lookup_cons, hf, jobj_lookup_cons]
        by_cases h : k = k'
        · subst h; simp
        · simp [h, ih]

/-!
## Shared concrete execution scenario

A canonical three-key configuration with one enabled prediction run `p1`
(CHAI only) and one enabled whole-protein analysis run `a1` sourcing it,
run against a world in which every external command succeeds except the
RMSD-heatmap plot (an analysis step).
-/

def sampleDoc : JObj :=
  [("global", .obj
      [("directories", .obj
          [("chai_fasta", .str "CHAI_FASTA"), ("boltz_yaml", .str "BOLTZ_YAML"),
           ("chai_output", .str "OUTPUT/CHAI"), ("boltz_output", .str "OUTPUT/BOLTZ"),
           ("pse_files", .str "PSE_FILES"), ("plots", .str "plots"),
           ("csv", .str "csv")])]),
   ("prediction_runs", .arr
      [.obj [("id", .str "p1"), ("description", .str "prediction run"),
             ("enabled", .bool true),
             ("methods", .obj
                [("use_chai", .bool true), ("use_boltz", .bool false),
                 ("use_msa", .bool false), ("use_msa_dir", .bool false)])]]),
   ("analysis_runs", .arr
      [.obj [("id", .str "a1"), ("description", .str "whole protein analysis"),
             ("enabled", .bool true),
             ("source_predictions", .arr [.str "p1"]),
             ("analysis_type", .str "whole_protein")]])]

def failRmsdWorld : World :=
  ⟨fun cmd => !(cmd.contains "src/plot_rmsd_heatmap.py")⟩

def exitCodeOf (r : Except String (Nat × Ctx)) : Option Nat :=
  match r with
  | .ok (n, _) => some n
  | .error _ => none

def finalCtxOf (r : Except String (Nat × Ctx)) : Option Ctx :=
  match r with
  | .ok (_, c) => some c
  | .error _ => none

/-!
## Claims
-/

/-- C1: code bug in the source.  On a configuration whose single
prediction run succeeds while its whole-protein analysis run fails at the
RMSD-heatmap step, `main` returns exit code 0: line 745 returns
`0 if prediction_success else 1` and the `analysis_success` flag assigned
at line 735 is never read, so a failed analysis run does not make the exit
status 1 as the claim requires.  The theorem evaluates the embedded `main`
at that failing input: the exit code is 0 although a command of the
analysis run was invoked and failed. -/
theorem c1_exit_code_ignores_failed_analysis_run :
    exitCodeOf (main failRmsdWorld "T" {} (.parsed sampleDoc) none) = some 0
    ∧ (finalCtxOf (main failRmsdWorld "T" {} (.parsed sampleDoc) none)).map
        (fun c => c.invoked.any fun cmd =>
          cmd.contains "src/plot_rmsd_heatmap.py" && !failRmsdWorld.run cmd)
      = some true := by
  constructor
  · decide
  · decide

/-- C4: code bug in the source.  Line 740 clears `failed_step` whenever
`prediction_success` holds, ignoring analysis failures (the
`analysis_success` flag is never read).  The theorem evaluates the embedded
`main` with `--resume` on the shared failing scenario: the failing analysis
step records `failed_step = "rmsd-plot"` in the persisted state (writes 7-9)
and the final persisted write has `failed_step = None` again, so a
`failed_step` recorded by a failing analysis run is NOT still set at
session end, contrary to the claim. -/
theorem c4_failed_step_cleared_despite_failed_analysis :
    (main failRmsdWorld "T" { resume := true } (.parsed sampleDoc) none).toOption.map
        (fun r => (r.1, r.2.writes.map PState.failed_step))
      = some (0, [none, none, none, none, none, none, some "rmsd-plot",
                  some "rmsd-plot", some "rmsd-plot", none]) := by
  decide

/-- C5: `update_state` on success appends the step id to
`completed_steps` only when absent (idempotent) and clears
`failed_step`/`error_message` exactly when the succeeding id equals
`failed_step`; on failure it records the id and message and leaves
`completed_steps` unchanged. -/
theorem c5_update_state_spec (s : PState) (id : String) (msg : Option String)
    (now : String) :
    ((update_state s id true msg now).completed_steps =
        if s.completed_steps.contains id then s.completed_steps
        else s.completed_steps ++ [id])
    ∧ ((update_state s id true msg now).failed_step =
        if s.failed_step = some id then none else s.failed_step)
    ∧ ((update_state s id true msg now).error_message =
        if s.failed_step = some id then none else s.error_message)
    ∧ (update_state s id false msg now).failed_step = some id
    ∧ (update_state s id false msg now).error_message = msg
    ∧ (update_state s id false msg now).completed_steps = s.completed_steps := by
  unfold update_state
  by_cases h1 : id ∈ s.completed_steps
    <;> by_cases h2 : s.failed_step = some id
    <;> simp [h1, h2]

def runIdsOf (rs : List JValue) : List JValue :=
  rs.filterMap fun r => match r with | .obj m => JObj.lookup m "id" | _ => none

def sourcesOf (rs : List JValue) : List JValue :=
  rs.filterMap fun r =>
    match r with | .obj m => JObj.lookup m "source_predictions" | _ => none

/-- C3 counterexample: a present but malformed configuration file raises
`json.JSONDecodeError` (only `FileNotFoundError` is caught in the source),
so `load_config` does not return the built-in defaults without raising on
every read failure. -/
theorem c3_malformed_config_raises :
    load_config .malformed = .error "json.JSONDecodeError" := rfl

/-- C3 (amended): `load_config` falls back to the fully-specified built-in
default document (prediction runs `standard` and `with_msa`, one
`whole_protein` analysis run sourcing both) only when the configuration
file is absent; malformed contents raise a parse error that propagates. -/
theorem c3_absent_config_defaults :
    load_config .absent = .ok default_config
    ∧ (get_enabled_runs default_config "prediction_runs" none).map runIdsOf
        = .ok [.str "standard", .str "with_msa"]
    ∧ (get_enabled_runs default_config "analysis_runs" none).map runIdsOf
        = .ok [.str "whole_protein"]
    ∧ (get_enabled_runs default_config "analysis_runs" none).map sourcesOf
        = .ok [.arr [.str "standard", .str "with_msa"]]
    ∧ (match load_config .malformed with | .error _ => true | .ok _ => false) = true := by
  refine ⟨rfl, rfl, rfl, rfl, rfl⟩

def gen1NoAnalysisDoc : JObj :=
  [("global", .obj []),
   ("prediction_runs", .arr [.obj [("id", .str "p1"), ("enabled", .bool true)]])]

/-- C2 counterexample: a document carrying `global` and `prediction_runs`
but no `analysis_runs` — one of the generations the claim covers — is
returned by `load_config` unchanged: the output has no `analysis_runs` key
and no `whole_protein` analysis run is synthesized. -/
theorem c2_gen1_missing_analysis_runs_not_synthesized :
    load_config (.parsed gen1NoAnalysisDoc) = .ok (.obj gen1NoAnalysisDoc)
    ∧ pyHasKey (.obj gen1NoAnalysisDoc) "analysis_runs" = .ok false := by
  exact ⟨rfl, rfl⟩

/-- C2 (amended): the three-generation migration.  A document with both
`global` and `prediction_runs` is accepted as-is (so `analysis_runs` is in
the output only if the input had it); a `global`+`configurations` document
is renamed and receives exactly one synthesized `whole_protein` analysis
run sourcing the originally-enabled configuration ids; any other document
is treated as flat settings and receives a synthesized `default` prediction
run and a `whole_protein` analysis run sourcing it — all three keys present
in the latter two generations. -/
theorem c2_migration_characterization (doc : JObj) :
    (JObj.hasKey doc "global" = true → JObj.hasKey doc "prediction_runs" = true →
      load_config (.parsed doc) = .ok (.obj doc))
    ∧ (JObj.hasKey doc "global" = true → JObj.hasKey doc "prediction_runs" = false →
       JObj.hasKey doc "configurations" = true →
       ∀ cfgList cfgs sources,
         JObj.lookup doc "configurations" = some cfgList →
         pyIter cfgList = .ok cfgs →
         enabledIds cfgs = .ok sources →
         load_config (.parsed doc) = .ok (.obj
           [("global", (JObj.lookup doc "global").getD .null),
            ("prediction_runs", cfgList),
            ("analysis_runs", .arr [synthesizedAnalysisRun sources])]))
    ∧ ((JObj.hasKey doc "global" && JObj.hasKey doc "prediction_runs") = false →
       (JObj.hasKey doc "global" && JObj.hasKey doc "configurations") = false →
       load_config (.parsed doc) = .ok (.obj
         [("global", .obj doc),
          ("prediction_runs", .arr
             [.obj [("id", .str "default"),
                    ("description", .str "Default configuration"),
                    ("enabled", .bool true),
                    ("methods", (JObj.lookup doc "methods").getD (.obj []))]]),
          ("analysis_runs", .arr
             [.obj [("id", .str "whole_protein"),
                    ("description", .str "Standard whole protein analysis"),
                    ("enabled", .bool true),
                    ("source_predictions", .arr [.str "default"]),
                    ("analysis_type", .str "whole_protein")]])])) := by
  refine ⟨?_, ?_, ?_⟩
  · intro h1 h2
    simp [load_config, h1, h2]
  · intro h1 h2 h3 cfgList cfgs sources hl hi he
    simp only [JObj.lookup] at hl
    simp [load_config, h1, h2, h3, pyIndex, hl, hi, he, bind, Except.bind]
  · intro h1 h2
    simp only [load_config]
    rw [if_neg (by simp [h1]), if_neg (by simp [h2])]

/-- Witness for `c2_migration_characterization`: the intermediate
(`global`+`configurations`) generation at a concrete document with one
disabled and one enabled configuration. -/
theorem c2_migration_characterization_witness :
    load_config (.parsed
      [("global", .obj [("model_idx", .num 2)]),
       ("configurations", .arr
          [.obj [("id", .str "x"), ("enabled", .bool false)],
           .obj [("id", .str "y")]])])
    = .ok (.obj
      [("global", .obj [("model_idx", .num 2)]),
       ("prediction_runs", .arr
          [.obj [("id", .str "x"), ("enabled", .bool false)],
           .obj [("id", .str "y")]]),
       ("analysis_runs", .arr [synthesizedAnalysisRun [.str "y"]])]) := by
  exact (c2_migration_characterization
      [("global", .obj [("model_idx", .num 2)]),
       ("configurations", .arr
          [.obj [("id", .str "x"), ("enabled", .bool false)],
           .obj [("id", .str "y")]])]).2.1
    rfl rfl rfl _ _ _ rfl rfl rfl

/-- C7 counterexample: with `--resume`, a persisted `config_hash` of `""`
is non-null and differs from the hash of the freshly loaded configuration,
and `--force-resume` is absent — yet the guard
`state["config_hash"] and state["config_hash"] != ...` (line 628) treats
the empty string as falsy, so the pipeline proceeds: external commands are
invoked and `main` does not exit with failure. -/
theorem c7_empty_hash_resume_not_halted :
    (some "" : Option String) ≠ none
    ∧ resolved_config (.parsed sampleDoc) { resume := true } = .ok (.obj sampleDoc)
    ∧ "" ≠ compute_config_hash (.obj sampleDoc)
    ∧ (main failRmsdWorld "T" { resume := true } (.parsed sampleDoc)
          (some { config_hash := some "" })).toOption.map
        (fun r => (r.1, r.2.invoked.isEmpty)) = some (0, false) := by
  refine ⟨by decide, rfl, by decide, by decide⟩

/-- C7 (amended): with `--resume` and without `--clean-state`, a persisted
non-null, non-empty `config_hash` differing from the hash of the freshly
loaded (and CLI-overridden) configuration, and no `--force-resume`, `main`
returns exit code 1 having invoked no external command and written no
state. -/
theorem c7_resume_conflict_halts (w : World) (now : String) (a : Args)
    (inp : LoadInput) (st : PState) (fc : JValue) (h : String)
    (hres : a.resume = true) (hforce : a.force_resume = false)
    (hclean : a.clean_state = false)
    (hfc : resolved_config inp a = .ok fc)
    (hhash : st.config_hash = some h) (hne : h ≠ "")
    (hdiff : h ≠ compute_config_hash fc) :
    main w now a inp (some st)
      = .ok (1, { state_file := some a.state_file, state := some st,
                  writes := [], invoked := [] }) := by
  have h1 : truthyOptStr st.config_hash = true := by
    rw [hhash]
    simp [truthyOptStr, hne]
  have h2 : (st.config_hash.getD "" != compute_config_hash fc) = true := by
    rw [hhash]
    simp [hdiff]
  unfold main
  rw [hfc]
  simp [bind, Except.bind, hres, hclean, hforce, read_state_file, h1, h2]

/-- Witness for `c7_resume_conflict_halts` at a concrete configuration and
persisted state. -/
theorem c7_resume_conflict_halts_witness :
    main failRmsdWorld "T" { resume := true } (.parsed sampleDoc)
      (some { config_hash := some "z" })
    = .ok (1, { state_file := some "pipeline_state.json",
                state := some { config_hash := some "z" },
                writes := [], invoked := [] }) := by
  exact c7_resume_conflict_halts failRmsdWorld "T" { resume := true }
    (.parsed sampleDoc) { config_hash := some "z" } (.obj sampleDoc) "z"
    rfl rfl rfl rfl rfl (by decide) (by decide)

def motifNoTemplateDoc : JValue :=
  .obj [("global", .obj
    [("templates", .obj [("default_template", .str "KOr_w_momSalB.cif")]),
     ("motifs", .obj [("definitions", .arr
        [.obj [("id", .str "m1"), ("chain", .str "A")]])])])]

/-- C9 counterexample: the run's default template
(`templates.default_template`) is present and the motif `m1` resolves but
carries no motif-specific template; `get_motif_template` returns `None`
instead of falling back to the run's default template. -/
theorem c9_no_fallback_to_default_template :
    get_motif_definition motifNoTemplateDoc (.str "m1")
      = .ok (some (.obj [("id", .str "m1"), ("chain", .str "A")]))
    ∧ pyGet motifNoTemplateDoc "global" (.obj [])
        = .ok (.obj
            [("templates", .obj [("default_template", .str "KOr_w_momSalB.cif")]),
             ("motifs", .obj [("definitions", .arr
                [.obj [("id", .str "m1"), ("chain", .str "A")]])])])
    ∧ get_motif_template motifNoTemplateDoc (.str "m1") (some "templates") = .ok none := by
  exact ⟨rfl, rfl, rfl⟩

/-- C9 (amended): `get_motif_template` returns the motif-specific template
path when the resolved motif definition has one, prepending the templates
directory when that directory is supplied (non-empty) and the path is
relative; otherwise — motif not found or no motif-specific template — it
returns `None`, never the run's default template. -/
theorem c9_template_resolution (config motifId : JValue) (tdir : Option String) :
    (∀ m t, get_motif_definition config motifId = .ok (some (.obj m)) →
       JObj.lookup m "template" = some (.str t) →
       get_motif_template config motifId tdir
         = .ok (some (if truthyOptStr tdir && !pyIsAbsolute t
                      then pathJoin (tdir.getD "") t else t)))
    ∧ (∀ m, get_motif_definition config motifId = .ok (some (.obj m)) →
       JObj.lookup m "template" = none →
       get_motif_template config motifId tdir = .ok none)
    ∧ (get_motif_definition config motifId = .ok none →
       get_motif_template config motifId tdir = .ok none) := by
  refine ⟨?_, ?_, ?_⟩
  · intro m t hm ht
    have hne : m ≠ [] := by
      intro h
      rw [h] at ht
      exact Option.noConfusion ht
    have ht' : List.lookup "template" m = some (.str t) := ht
    have hEmpty : m.isEmpty = false := by
      cases m with
      | nil => exact absurd rfl hne
      | cons p l => rfl
    simp only [get_motif_template, hm, ht', bind, Except.bind, pyHasKey,
      JObj.hasKey, JObj.lookup, pyIndex, JValue.truthy, hEmpty,
      Option.isSome_some, Bool.not_true, Bool.not_false, Bool.false_eq_true,
      if_false, Bool.and_eq_true]
    by_cases hc : truthyOptStr tdir = true ∧ (!pyIsAbsolute t) = true
    · rw [if_pos hc, if_pos hc]
    · rw [if_neg hc, if_neg hc]
  · intro m hm ht
    have ht' : List.lookup "template" m = none := ht
    simp [get_motif_template, hm, ht', bind, Except.bind, pyHasKey, JObj.hasKey,
      JObj.lookup, pyIndex, JValue.truthy]
  · intro hm
    simp [get_motif_template, hm, bind, Except.bind]

/-- Witness for `c9_template_resolution`: a motif whose relative template
is resolved against the supplied templates directory. -/
theorem c9_template_resolution_witness :
    get_motif_template
      (.obj [("global", .obj [("motifs", .obj [("definitions", .arr
         [.obj [("id", .str "m2"), ("template", .str "special.cif")]])])])])
      (.str "m2") (some "templates")
    = .ok (some "templates/special.cif") := by
  exact (c9_template_resolution
      (.obj [("global", .obj [("motifs", .obj [("definitions", .arr
         [.obj [("id", .str "m2"), ("template", .str "special.cif")]])])])])
      (.str "m2") (some "templates")).1
    [("id", .str "m2"), ("template", .str "special.cif")] "special.cif" rfl rfl

def mergedCfgC10 : JObj :=
  [("directories", .obj
      [("chai_fasta", .str "CHAI_FASTA"), ("plots", .str "plots"),
       ("csv", .str "csv")]),
   ("methods", .obj [("use_chai", .bool true), ("use_msa", .bool false)])]

/-- C10 counterexample: the namespace produced by the CLI parser for
`--plots NEWPLOTS` binds destination `plots`, whose dash-spelled form is
identical (no underscore), so `update_config_from_args` DOES modify the
`directories` section, contradicting the claim that every entry of
`config["directories"]` is left unchanged. -/
theorem c10_plots_directory_is_updated :
    (update_config_from_args mergedCfgC10 { plots := some "NEWPLOTS" }).map
        (fun c => JObj.lookup c "directories")
      = .ok (some (.obj
          [("chai_fasta", .str "CHAI_FASTA"), ("plots", .str "NEWPLOTS"),
           ("csv", .str "csv")]))
    ∧ JObj.lookup mergedCfgC10 "directories"
      = some (.obj
          [("chai_fasta", .str "CHAI_FASTA"), ("plots", .str "plots"),
           ("csv", .str "csv")]) := by
  exact ⟨rfl, rfl⟩

theorem argsDict_keys (a : Args) :
    (argsDict a).map Prod.fst =
      ["config", "no_archive", "delete_outputs", "skip_step", "resume",
       "force_resume", "state_file", "clean_state", "chai_fasta", "boltz_yaml",
       "chai_output", "boltz_output", "pse_files", "plots", "csv", "use_chai",
       "use_boltz", "use_msa", "use_msa_dir", "template", "model_idx",
       "prediction_runs", "analysis_runs", "enable_prediction",
       "disable_prediction", "enable_analysis", "disable_analysis", "configs",
       "enable_config", "disable_config", "motif", "quiet"] := rfl

theorem lookup_eq_none_of_no_dash_keys (l : JObj)
    (hl : ∀ k ∈ l.map Prod.fst, '-' ∉ k.data) (k : String)
    (hk : '-' ∈ k.data) : JObj.lookup l k = none := by
  apply lookup_eq_none_of_not_mem_keys
  intro hmem
  exact hl k hmem hk

theorem argsDict_lookup_dashed_none (a : Args) (k : String)
    (hk : '-' ∈ k.data) : JObj.lookup (argsDict a) k = none := by
  apply lookup_eq_none_of_no_dash_keys
  · rw [argsDict_keys]
    decide
  · exact hk

theorem dashify_mem_dash (s : String) (h : '_' ∈ s.data) :
    '-' ∈ (dashify s).data := by
  simp only [dashify]
  have : ('-' : Char) = (fun c => if c = '_' then '-' else c) '_' := by decide
  rw [this]
  exact List.mem_map_of_mem _ h

theorem updateDirEntry_underscore (a : Args) (k : String) (v : JValue)
    (h : '_' ∈ k.data) : updateDirEntry a (k, v) = (k, v) := by
  unfold updateDirEntry
  rw [argsDict_lookup_dashed_none a _ (dashify_mem_dash k h)]

theorem updateMethodEntry_underscore (a : Args) (k : String) (v : JValue)
    (h : '_' ∈ k.data) : updateMethodEntry a (k, v) = (k, v) := by
  unfold updateMethodEntry
  rw [argsDict_lookup_dashed_none a _ (dashify_mem_dash k h)]

/-- C10 (amended): for every argument namespace, `update_config_from_args`
leaves unchanged every `directories` and every `methods` entry whose key
contains an underscore — the update looks the key up under its dash-spelled
form, and no destination in the argument dictionary contains a dash.
(Underscore-free keys such as `plots`/`csv` are exactly the ones the
counterexample shows being replaced; only they and `templates` can
change.) -/
theorem c10_underscore_keys_unchanged (a : Args) (config out : JObj)
    (h : update_config_from_args config a = .ok out) :
    (∀ d, JObj.lookup config "directories" = some (.obj d) →
       ∃ d', JObj.lookup out "directories" = some (.obj d')
         ∧ ∀ k, '_' ∈ k.data → JObj.lookup d' k = JObj.lookup d k)
    ∧ (∀ m, JObj.lookup config "methods" = some (.obj m) →
       ∃ m', JObj.lookup out "methods" = some (.obj m')
         ∧ ∀ k, '_' ∈ k.data → JObj.lookup m' k = JObj.lookup m k) := by
  -- decompose the three sequential blocks
  unfold update_config_from_args at h
  cases h1 : updateDirs config a with
  | error e => rw [h1] at h; exact absurd h (by simp [bind, Except.bind])
  | ok c1 =>
    rw [h1] at h
    simp only [bind, Except.bind] at h
    cases h2 : updateMethods c1 a with
    | error e =>
        rw [h2] at h
        exact absurd h (by simp)
    | ok c2 =>
      rw [h2] at h
      replace h : updateTemplates c2 a = Except.ok out := h
      -- lookups of `directories` across the three blocks
      have hd1 : ∀ d, JObj.lookup config "directories" = some (.obj d) →
          JObj.lookup c1 "directories" = some (.obj (d.map (updateDirEntry a))) := by
        intro d hd
        unfold updateDirs at h1
        rw [hd] at h1
        simp only [Except.ok.injEq] at h1
        rw [← h1]
        exact lookup_setKey_self _ _ _
      have hm1 : ∀ v, JObj.lookup config "methods" = some v →
          JObj.lookup c1 "methods" = some v := by
        intro v hv
        unfold updateDirs at h1
        cases hld : JObj.lookup config "directories" with
        | none => rw [hld] at h1; simp only [Except.ok.injEq] at h1; rw [← h1]; exact hv
        | some dv =>
            cases dv with
            | obj d =>
                rw [hld] at h1
                simp only [Except.ok.injEq] at h1
                rw [← h1, lookup_setKey_ne _ _ _ _ (by decide)]
                exact hv
            | null => rw [hld] at h1; exact absurd h1 (by simp)
            | bool b => rw [hld] at h1; exact absurd h1 (by simp)
            | num q => rw [hld] at h1; exact absurd h1 (by simp)
            | str s => rw [hld] at h1; exact absurd h1 (by simp)
            | arr xs => rw [hld] at h1; exact absurd h1 (by simp)
      have hd2 : ∀ v, JObj.lookup c1 "directories" = some v →
          JObj.lookup c2 "directories" = some v := by
        intro v hv
        unfold updateMethods at h2
        cases hlm : JObj.lookup c1 "methods" with
        | none => rw [hlm] at h2; simp only [Except.ok.injEq] at h2; rw [← h2]; exact hv
        | some mv =>
            cases mv with
            | obj m =>
                rw [hlm] at h2
                simp only [Except.ok.injEq] at h2
                rw [← h2, lookup_setKey_ne _ _ _ _ (by decide)]
                exact hv
            | null => rw [hlm] at h2; exact absurd h2 (by simp)
            | bool b => rw [hlm] at h2; exact absurd h2 (by simp)
            | num q => rw [hlm] at h2; exact absurd h2 (by simp)
            | str s => rw [hlm] at h2; exact absurd h2 (by simp)
            | arr xs => rw [hlm] at h2; exact absurd h2 (by simp)
      have hm2 : ∀ m, JObj.lookup c1 "methods" = some (.obj m) →
          JObj.lookup c2 "methods" = some (.obj (m.map (updateMethodEntry a))) := by
        intro m hv
        unfold updateMethods at h2
        rw [hv] at h2
        simp only [Except.ok.injEq] at h2
        rw [← h2]
        exact lookup_setKey_self _ _ _
      have hout : ∀ v k0, k0 ≠ "templates" → JObj.lookup c2 k0 = some v →
          JObj.lookup out k0 = some v := by
        intro v k0 hk0 hv
        unfold updateTemplates at h
        cases hlt : JObj.lookup c2 "templates" with
        | none => rw [hlt] at h; simp only [Except.ok.injEq] at h; rw [← h]; exact hv
        | some tv =>
            cases tv with
            | obj t =>
                rw [hlt] at h
                simp only [Except.ok.injEq] at h
                rw [← h, lookup_setKey_ne _ _ _ _ hk0]
                exact hv
            | null => rw [hlt] at h; exact absurd h (by simp)
            | bool b => rw [hlt] at h; exact absurd h (by simp)
            | num q => rw [hlt] at h; exact absurd h (by simp)
            | str s => rw [hlt] at h; exact absurd h (by simp)
            | arr xs => rw [hlt] at h; exact absurd h (by simp)
      constructor
      · intro d hd
        refine ⟨d.map (updateDirEntry a), ?_, ?_⟩
        · exact hout _ _ (by decide) (hd2 _ (hd1 d hd))
        · intro k hk
          have hpres : ∀ kv : String × JValue, (updateDirEntry a kv).1 = kv.1 := by
            intro kv
            unfold updateDirEntry
            cases JObj.lookup (argsDict a) (dashify kv.1) with
            | none => rfl
            | some av =>
                by_cases hn : av ≠ JValue.null
                · simp [hn]
                · simp [hn]
          rw [lookup_map_preserving _ hpres]
          cases hv : JObj.lookup d k with
          | none => rfl
          | some v =>
              simp [updateDirEntry_underscore a k v hk]
      · intro m hm
        refine ⟨m.map (updateMethodEntry a), ?_, ?_⟩
        · exact hout _ _ (by decide) (hm2 _ (hm1 _ hm))
        · intro k hk
          have hpres : ∀ kv : String × JValue, (updateMethodEntry a kv).1 = kv.1 := by
            intro kv
            unfold updateMethodEntry
            cases JObj.lookup (argsDict a) (dashify kv.1) with
            | none => rfl
            | some av => rfl
          rw [lookup_map_preserving _ hpres]
          cases hv : JObj.lookup m k with
          | none => rfl
          | some v =>
              simp [updateMethodEntry_underscore a k v hk]

/-- Witness for `c10_underscore_keys_unchanged`: on the counterexample
configuration, the underscore-spelled directory key `chai_fasta` and the
method keys keep their values even with `--plots` supplied. -/
theorem c10_underscore_keys_unchanged_witness :
    ∃ out, update_config_from_args mergedCfgC10 { plots := some "NEWPLOTS" } = .ok out
    ∧ ∃ d', JObj.lookup out "directories" = some (.obj d')
        ∧ JObj.lookup d' "chai_fasta" = some (.str "CHAI_FASTA") := by
  refine ⟨[("directories", .obj
      [("chai_fasta", .str "CHAI_FASTA"), ("plots", .str "NEWPLOTS"),
       ("csv", .str "csv")]),
     ("methods", .obj [("use_chai", .bool true), ("use_msa", .bool false)])],
    rfl, ?_⟩
  obtain ⟨d', hd', hkeep⟩ :=
    (c10_underscore_keys_unchanged { plots := some "NEWPLOTS" } mergedCfgC10 _ rfl).1
      [("chai_fasta", .str "CHAI_FASTA"), ("plots", .str "plots"),
       ("csv", .str "csv")] rfl
  exact ⟨d', hd', by rw [hkeep "chai_fasta" (by decide)]; rfl⟩

/-!
## Infrastructure for the motif skip claim (C8)
-/

theorem dash_append_ne_script (p x : String) (hp : p.data.head? = some '-') :
    p ++ x ≠ "src/plot_motif_rmsd.py" := by
  intro he
  have h2 : (p ++ x).data.head? = some '-' := by
    rw [show (p ++ x).data = p.data ++ x.data from rfl]
    cases hl : p.data with
    | nil => rw [hl] at hp; exact Option.noConfusion hp
    | cons c cs =>
        rw [hl] at hp
        simpa using hp
  rw [he] at h2
  exact absurd h2 (by decide)

theorem append_ne_append_of_take_ne (p q x y : String) (n : Nat)
    (hp : n ≤ p.data.length) (hq : n ≤ q.data.length)
    (hne : p.data.take n ≠ q.data.take n) : p ++ x ≠ q ++ y := by
  intro he
  apply hne
  have hd : p.data ++ x.data = q.data ++ y.data := congrArg String.data he
  rw [← List.take_append_of_le_length hp, ← List.take_append_of_le_length hq, hd]

theorem splitDash_motif_rmsd (m : String) :
    splitDash (("motif-rmsd-" ++ m).data)
      = "motif".data :: "rmsd".data :: splitDash m.data := by
  rw [show ("motif-rmsd-" ++ m).data
        = 'm' :: 'o' :: 't' :: 'i' :: 'f' :: '-' :: 'r' :: 'm' :: 's' :: 'd'
            :: '-' :: m.data from rfl]
  simp [splitDash]

theorem baseStepId_motif_rmsd (m : String) :
    baseStepId ("motif-rmsd-" ++ m) = "motif-rmsd" := by
  unfold baseStepId pySplitDash
  rw [splitDash_motif_rmsd]
  rfl

theorem log_error_invoked (msg : String) (ctx : Ctx) :
    (log_error msg ctx).invoked = ctx.invoked := by
  unfold log_error
  by_cases h : ctx.tracking = true
  · rw [if_pos h]
    cases ctx.state <;> rfl
  · rw [if_neg h]

theorem log_error_completed (msg : String) (ctx : Ctx) :
    completedOf (log_error msg ctx) = completedOf ctx := by
  unfold log_error
  by_cases h : ctx.tracking = true
  · rw [if_pos h]
    cases hs : ctx.state with
    | none => rfl
    | some st => simp [completedOf, Ctx.setAndWrite, hs]
  · rw [if_neg h]

theorem mem_update_state_completed (st : PState) (sid : String) (succ : Bool)
    (msg : Option String) (now rid : String) (hne : sid ≠ rid) :
    (rid ∈ (update_state st sid succ msg now).completed_steps)
      ↔ rid ∈ st.completed_steps := by
  unfold update_state
  cases succ
  · simp
  · by_cases h1 : sid ∈ st.completed_steps
      <;> by_cases h2 : st.failed_step = some sid
      <;> simp [h1, h2, Ne.symm hne]

theorem update_state_false_completed (st : PState) (sid : String)
    (msg : Option String) (now : String) :
    (update_state st sid false msg now).completed_steps = st.completed_steps := by
  unfold update_state
  simp

theorem run_step_frame (w : World) (now : String) (cmd : List String)
    (desc sid : String) (ctx : Ctx) (rid : String) (hne : sid ≠ rid) :
    (run_step w now cmd desc sid ctx).2.invoked = ctx.invoked ++ [cmd]
    ∧ ((rid ∈ completedOf (run_step w now cmd desc sid ctx).2)
        ↔ rid ∈ completedOf ctx) := by
  unfold run_step
  by_cases hw : w.run cmd = true
  · simp only [hw, if_true]
    by_cases ht : Ctx.tracking { ctx with invoked := ctx.invoked ++ [cmd] } = true
    · rw [if_pos ht]
      cases hs : ctx.state with
      | none => exact ⟨rfl, by simp [completedOf, hs]⟩
      | some st =>
          refine ⟨rfl, ?_⟩
          simp only [completedOf, Ctx.setAndWrite, hs]
          exact mem_update_state_completed st sid true none now rid hne
    · rw [if_neg ht]
      exact ⟨rfl, Iff.rfl⟩
  · simp only [hw, Bool.false_eq_true, if_false]
    have hcmp2 : completedOf (log_error ("Error in " ++ desc ++ ": CalledProcessError")
        { ctx with invoked := ctx.invoked ++ [cmd] }) = completedOf ctx := by
      rw [log_error_completed]
      rfl
    have hinv2 : (log_error ("Error in " ++ desc ++ ": CalledProcessError")
        { ctx with invoked := ctx.invoked ++ [cmd] }).invoked = ctx.invoked ++ [cmd] := by
      rw [log_error_invoked]
    generalize hg : log_error ("Error in " ++ desc ++ ": CalledProcessError")
        { ctx with invoked := ctx.invoked ++ [cmd] } = ctx2 at hcmp2 hinv2 ⊢
    by_cases ht : ctx2.tracking = true
    · rw [if_pos ht]
      cases hs : ctx2.state with
      | none => exact ⟨hinv2, by rw [← hcmp2]⟩
      | some st =>
          refine ⟨hinv2, ?_⟩
          have h2 : completedOf ctx2 = st.completed_steps := by
            simp [completedOf, hs]
          have hL : completedOf (ctx2.setAndWrite (update_state st sid false
              (some ("Error in " ++ desc ++ ": CalledProcessError")) now))
              = st.completed_steps := by
            simp [completedOf, Ctx.setAndWrite, update_state_false_completed]
          rw [hL, ← h2, hcmp2]
    · rw [if_neg ht]
      exact ⟨hinv2, by rw [← hcmp2]⟩

theorem exec_steps_cons_true (w : World) (now : String) (a : Args)
    (s : Step) (rest : List Step) (ctx : Ctx) :
    exec_steps w now a true (s :: rest) ctx =
      (if a.skip_step.contains (baseStepId s.id) then
        exec_steps w now a true rest ctx
      else if a.resume && ctx.state.isSome && (completedOf ctx).contains s.id then
        exec_steps w now a true rest ctx
      else
        let r := run_step w now s.command s.description s.id ctx
        if r.1 then exec_steps w now a true rest r.2
        else (false, log_error ("Pipeline failed at step: " ++ s.id) r.2)) := rfl

theorem exec_steps_motif_frame (w : World) (now : String) (a : Args)
    (rid : String) :
    ∀ (steps : List Step) (ctx : Ctx),
      (∀ s ∈ steps, a.skip_step.contains (baseStepId s.id) = true ∨
         ((∀ y ∈ s.command, y ≠ "src/plot_motif_rmsd.py") ∧ s.id ≠ rid)) →
      ∃ tail, (exec_steps w now a true steps ctx).2.invoked = ctx.invoked ++ tail
        ∧ (∀ c ∈ tail, ∀ y ∈ c, y ≠ "src/plot_motif_rmsd.py")
        ∧ ((rid ∈ completedOf (exec_steps w now a true steps ctx).2)
            ↔ rid ∈ completedOf ctx) := by
  intro steps
  induction steps with
  | nil =>
      intro ctx _
      exact ⟨[], by simp [exec_steps], by simp, Iff.rfl⟩
  | cons s rest ih =>
      intro ctx hQ
      have hQs := hQ s (List.mem_cons_self s rest)
      have hQr : ∀ t ∈ rest, a.skip_step.contains (baseStepId t.id) = true ∨
          ((∀ y ∈ t.command, y ≠ "src/plot_motif_rmsd.py") ∧ t.id ≠ rid) :=
        fun t ht => hQ t (List.mem_cons_of_mem s ht)
      by_cases hsk : a.skip_step.contains (baseStepId s.id) = true
      · rw [exec_steps_cons_true, if_pos hsk]
        exact ih ctx hQr
      · have hQs' : (∀ y ∈ s.command, y ≠ "src/plot_motif_rmsd.py") ∧ s.id ≠ rid := by
          rcases hQs with h | h
          · exact absurd h hsk
          · exact h
        by_cases hrs : (a.resume && ctx.state.isSome
            && (completedOf ctx).contains s.id) = true
        · rw [exec_steps_cons_true, if_neg (by simpa using hsk), if_pos hrs]
          exact ih ctx hQr
        · rw [exec_steps_cons_true, if_neg (by simpa using hsk), if_neg (by simpa using hrs)]
          obtain ⟨hinv1, hcmp1⟩ :=
            run_step_frame w now s.command s.description s.id ctx rid hQs'.2
          by_cases hok : (run_step w now s.command s.description s.id ctx).1 = true
          · simp only [hok, if_true]
            obtain ⟨tail, hinv2, hsc2, hcmp2⟩ :=
              ih (run_step w now s.command s.description s.id ctx).2 hQr
            refine ⟨s.command :: tail, ?_, ?_, ?_⟩
            · rw [hinv2, hinv1]
              simp
            · intro c hc
              rcases List.mem_cons.1 hc with rfl | hc
              · exact hQs'.1
              · exact hsc2 c hc
            · rw [hcmp2, hcmp1]
          · simp only [hok, Bool.false_eq_true, if_false]
            refine ⟨[s.command], ?_, ?_, ?_⟩
            · rw [log_error_invoked, hinv1]
            · intro c hc
              rcases List.mem_cons.1 hc with rfl | hc
              · exact hQs'.1
              · exact absurd hc (List.not_mem_nil c)
            · rw [log_error_completed, hcmp1]

theorem motifTemplateFlag_dash (md : JValue) (fl : List String)
    (h : motifTemplateFlag md = .ok fl) :
    ∀ y ∈ fl, y.data.head? = some '-' := by
  cases md with
  | null => exact absurd h (by simp [motifTemplateFlag])
  | bool b => exact absurd h (by simp [motifTemplateFlag])
  | num q => exact absurd h (by simp [motifTemplateFlag])
  | str s => exact absurd h (by simp [motifTemplateFlag])
  | arr xs => exact absurd h (by simp [motifTemplateFlag])
  | obj m =>
      simp only [motifTemplateFlag, Except.ok.injEq] at h
      subst h
      cases hl : JObj.lookup m "template" with
      | none => simp [hl]
      | some tv =>
          intro y hy
          rcases List.mem_singleton.1 hy with rfl
          rfl

theorem motifMoleculesFlag_dash (md : JValue) (fl : List String)
    (h : motifMoleculesFlag md = .ok fl) :
    ∀ y ∈ fl, y.data.head? = some '-' := by
  cases md with
  | null => exact absurd h (by simp [motifMoleculesFlag])
  | bool b => exact absurd h (by simp [motifMoleculesFlag])
  | num q => exact absurd h (by simp [motifMoleculesFlag])
  | str s => exact absurd h (by simp [motifMoleculesFlag])
  | arr xs => exact absurd h (by simp [motifMoleculesFlag])
  | obj m =>
      simp only [motifMoleculesFlag] at h
      cases hl : JObj.lookup m "molecules" with
      | none =>
          rw [hl] at h
          replace h : ([] : List String) = fl := Except.ok.inj h
          subst h
          simp
      | some mv =>
          rw [hl] at h
          replace h : (if mv.truthy = true then
              (do
                let ms ← pyJoinComma mv
                Except.ok ["--molecules=" ++ ms])
              else Except.ok ([] : List String)) = Except.ok fl := h
          by_cases htr : mv.truthy = true
          · rw [if_pos htr] at h
            simp only [bind, Except.bind] at h
            cases hj : pyJoinComma mv with
            | error e => rw [hj] at h; exact absurd h (by simp)
            | ok ms =>
                rw [hj] at h
                simp only [Except.ok.injEq] at h
                subst h
                intro y hy
                rcases List.mem_singleton.1 hy with rfl
                rfl
          · rw [if_neg htr] at h
            simp only [Except.ok.injEq] at h
            subst h
            simp

theorem methodFlags_elems (config : JValue) (fl : List String)
    (h : methodFlags config = .ok fl) :
    ∀ y ∈ fl, y.data.head? = some '-' := by
  unfold methodFlags at h
  cases h1 : pyGet config "methods" (.obj []) with
  | error e => rw [h1, except_bind_error] at h; exact Except.noConfusion h
  | ok m1 =>
    rw [h1, except_bind_ok] at h
    cases h2 : pyGet m1 "use_chai" (.bool true) with
    | error e => rw [h2, except_bind_error] at h; exact Except.noConfusion h
    | ok uc =>
      rw [h2, except_bind_ok, except_bind_ok] at h
      cases h3 : pyGet m1 "use_boltz" (.bool true) with
      | error e => rw [h3, except_bind_error] at h; exact Except.noConfusion h
      | ok ub =>
        rw [h3, except_bind_ok, except_bind_ok] at h
        cases h4 : pyGet m1 "use_msa" (.bool true) with
        | error e => rw [h4, except_bind_error] at h; exact Except.noConfusion h
        | ok um =>
          rw [h4, except_bind_ok] at h
          replace h : (((if (!uc.truthy) = true then ["--no-chai"] else [])
              ++ (if (!ub.truthy) = true then ["--no-boltz"] else []))
              ++ (if (!um.truthy) = true then ["--no-msa"] else [])) = fl :=
            Except.ok.inj h
          subst h
          intro y hy
          simp only [List.mem_append] at hy
          rcases hy with (hy | hy) | hy
          · by_cases hc : (!uc.truthy) = true
            · rw [if_pos hc] at hy
              rcases List.mem_singleton.1 hy with rfl
              rfl
            · rw [if_neg hc] at hy
              exact absurd hy (List.not_mem_nil y)
          · by_cases hc : (!ub.truthy) = true
            · rw [if_pos hc] at hy
              rcases List.mem_singleton.1 hy with rfl
              rfl
            · rw [if_neg hc] at hy
              exact absurd hy (List.not_mem_nil y)
          · by_cases hc : (!um.truthy) = true
            · rw [if_pos hc] at hy
              rcases List.mem_singleton.1 hy with rfl
              rfl
            · rw [if_neg hc] at hy
              exact absurd hy (List.not_mem_nil y)

theorem quietFlag_elems (a : Args) : ∀ y ∈ quietFlag a, y.data.head? = some '-' := by
  unfold quietFlag
  split
  · intro y hy
    rcases List.mem_singleton.1 hy with rfl
    rfl
  · intro y hy
    exact absurd hy (List.not_mem_nil y)

theorem dash_ne_script (y : String) (hy : y.data.head? = some '-') :
    y ≠ "src/plot_motif_rmsd.py" := by
  intro he
  rw [he] at hy
  exact absurd hy (by decide)

/-- C8: in a motif analysis run with `motif-rmsd` on the skip list, the
step `motif-rmsd-<motif id>` is skipped for every motif id: among the
commands the run invokes, none mentions the `plot_motif_rmsd` collaborator,
and the step id `motif-rmsd-<motif id>` belongs to the completion ledger
afterwards exactly if it already did before.  The statement quantifies over
every initial context, including ones where the step is already recorded
complete under `--resume`: the explicit skip is checked first and wins. -/
theorem c8_motif_rmsd_skip (w : World) (now : String) (a : Args)
    (config : JValue) (ctx : Ctx) (runId motifId metrics fullConfig : JValue)
    (ok : Bool) (ctx' : Ctx)
    (hskip : a.skip_step.contains "motif-rmsd" = true)
    (hrun : run_motif_analysis w now a config ctx runId motifId metrics fullConfig
      = .ok (ok, ctx')) :
    ∃ tail, ctx'.invoked = ctx.invoked ++ tail
      ∧ (∀ c ∈ tail, ∀ y ∈ c, y ≠ "src/plot_motif_rmsd.py")
      ∧ ((("motif-rmsd-" ++ motifId.pyStr) ∈ completedOf ctx')
          ↔ ("motif-rmsd-" ++ motifId.pyStr) ∈ completedOf ctx) := by
  unfold run_motif_analysis at hrun
  simp only [] at hrun
  cases hmd : getMotifSource fullConfig config motifId with
  | error e => rw [hmd, except_bind_error] at hrun; exact Except.noConfusion hrun
  | ok md =>
  rw [hmd, except_bind_ok] at hrun
  by_cases htr : (!truthyOpt md) = true
  · rw [if_pos htr] at hrun
    replace hrun : (false, ctx) = (ok, ctx') := Except.ok.inj hrun
    obtain ⟨-, h2⟩ := Prod.mk.injEq .. ▸ hrun
    subst h2
    exact ⟨[], by simp, by simp, Iff.rfl⟩
  · rw [if_neg htr] at hrun
    cases hd1 : pyIndex config "directories" with
    | error e => rw [hd1, except_bind_error] at hrun; exact Except.noConfusion hrun
    | ok dirs =>
    rw [hd1, except_bind_ok] at hrun
    cases hp1 : pyIndex dirs "pse_files" with
    | error e => rw [hp1, except_bind_error] at hrun; exact Except.noConfusion hrun
    | ok pseV =>
    rw [hp1, except_bind_ok] at hrun
    cases hps : pyStrOperand "TypeError: Path argument is not a string" pseV with
    | error e => rw [hps, except_bind_error] at hrun; exact Except.noConfusion hrun
    | ok pseBase =>
    rw [hps, except_bind_ok] at hrun
    cases hri : pyStrOperand "TypeError: unsupported path-join operand" runId with
    | error e => rw [hri, except_bind_error] at hrun; exact Except.noConfusion hrun
    | ok runIdStr =>
    rw [hri, except_bind_ok, except_bind_ok] at hrun
    cases hco : pyIndex dirs "chai_output" with
    | error e => rw [hco, except_bind_error] at hrun; exact Except.noConfusion hrun
    | ok chaiOut =>
    rw [hco, except_bind_ok, except_bind_ok] at hrun
    cases hbo : pyIndex dirs "boltz_output" with
    | error e => rw [hbo, except_bind_error] at hrun; exact Except.noConfusion hrun
    | ok boltzOut =>
    rw [hbo, except_bind_ok] at hrun
    cases hcm : pyGet config "model_idx" (.num 4) with
    | error e => rw [hcm, except_bind_error] at hrun; exact Except.noConfusion hrun
    | ok cfgModelIdx =>
    rw [hcm, except_bind_ok] at hrun
    cases hmi : pyGet (md.getD .null) "model_idx" cfgModelIdx with
    | error e => rw [hmi, except_bind_error] at hrun; exact Except.noConfusion hrun
    | ok modelIdx =>
    rw [hmi, except_bind_ok] at hrun
    cases htf : motifTemplateFlag (md.getD .null) with
    | error e => rw [htf, except_bind_error] at hrun; exact Except.noConfusion hrun
    | ok tf =>
    rw [htf, except_bind_ok] at hrun
    cases hmo : motifMoleculesFlag (md.getD .null) with
    | error e => rw [hmo, except_bind_error] at hrun; exact Except.noConfusion hrun
    | ok mol =>
    rw [hmo, except_bind_ok] at hrun
    cases hmf : methodFlags config with
    | error e => rw [hmf, except_bind_error] at hrun; exact Except.noConfusion hrun
    | ok mfl =>
    rw [hmf, except_bind_ok] at hrun
    cases hro : metricsAllows metrics "rmsd" with
    | error e => rw [hro, except_bind_error] at hrun; exact Except.noConfusion hrun
    | ok rmsdOn =>
    rw [hro, except_bind_ok] at hrun
    cases hpo : metricsAllows metrics "plddt" with
    | error e => rw [hpo, except_bind_error] at hrun; exact Except.noConfusion hrun
    | ok plddtOn =>
    rw [hpo, except_bind_ok] at hrun
    replace hrun := Except.ok.inj hrun
    have hQ : ∀ s ∈ ([Step.mk ("combine-cif-" ++ motifId.pyStr)
          (["python", "src/combine_cif_files.py",
            "--chai-output=" ++ chaiOut.pyStr, "--boltz-output=" ++ boltzOut.pyStr,
            "--pse-files=" ++ pathJoin pseBase runIdStr,
            "--model-idx=" ++ modelIdx.pyStr]
            ++ tf ++ mol ++ mfl ++ quietFlag a)
          ("Creating base PSE files for motif " ++ motifId.pyStr),
        Step.mk ("motif-align-" ++ motifId.pyStr)
          (["python", "src/motif_alignment.py",
            "--motif=" ++ motifId.pyStr,
            "--pse-files=" ++ pathJoin pseBase runIdStr] ++ quietFlag a)
          ("Performing motif-specific alignment for " ++ motifId.pyStr)]
        ++ (if rmsdOn = true then
            [Step.mk ("motif-rmsd-" ++ motifId.pyStr)
              (["python", "src/plot_motif_rmsd.py",
                "--motif=" ++ motifId.pyStr,
                "--pse-files=" ++ pathJoin pseBase runIdStr] ++ quietFlag a)
              ("Generating motif-specific RMSD heatmap for " ++ motifId.pyStr)]
          else [])
        ++ (if plddtOn = true then
            [Step.mk ("motif-plddt-extract-" ++ motifId.pyStr)
              (["python", "src/extract_motif_plddt.py",
                "--motif=" ++ motifId.pyStr,
                "--pse-files=" ++ pathJoin pseBase runIdStr] ++ quietFlag a)
              ("Extracting motif-specific pLDDT values for " ++ motifId.pyStr),
             Step.mk ("motif-plddt-plot-" ++ motifId.pyStr)
              (["python", "src/plot_motif_plddt.py",
                "--motif=" ++ motifId.pyStr,
                "--pse-files=" ++ pathJoin pseBase runIdStr] ++ quietFlag a)
              ("Generating motif-specific pLDDT heatmap for " ++ motifId.pyStr)]
          else [])),
        a.skip_step.contains (baseStepId s.id) = true ∨
          ((∀ y ∈ s.command, y ≠ "src/plot_motif_rmsd.py")
            ∧ s.id ≠ "motif-rmsd-" ++ motifId.pyStr) := by
      intro s hs
      simp only [List.append_assoc, List.mem_append, List.mem_cons,
        List.not_mem_nil, or_false] at hs
      rcases hs with (rfl | rfl) | hs | hs
      · right
        constructor
        · intro y hy
          simp only [List.append_assoc, List.mem_append, List.mem_cons,
            List.not_mem_nil, or_false] at hy
          rcases hy with (rfl | rfl | rfl | rfl | rfl | rfl) | hy | hy | hy | hy
          · decide
          · decide
          · exact dash_ne_script _ rfl
          · exact dash_ne_script _ rfl
          · exact dash_ne_script _ rfl
          · exact dash_ne_script _ rfl
          · exact dash_ne_script _ (motifTemplateFlag_dash _ _ htf y hy)
          · exact dash_ne_script _ (motifMoleculesFlag_dash _ _ hmo y hy)
          · exact dash_ne_script _ (methodFlags_elems _ _ hmf y hy)
          · exact dash_ne_script _ (quietFlag_elems a y hy)
        · exact append_ne_append_of_take_ne _ _ _ _ 1 (by decide) (by decide)
            (by decide)
      · right
        constructor
        · intro y hy
          simp only [List.mem_append, List.mem_cons, List.not_mem_nil,
            or_false] at hy
          rcases hy with (rfl | rfl | rfl | rfl) | hy
          · decide
          · decide
          · exact dash_ne_script _ rfl
          · exact dash_ne_script _ rfl
          · exact dash_ne_script _ (quietFlag_elems a y hy)
        · exact append_ne_append_of_take_ne _ _ _ _ 7 (by decide) (by decide)
            (by decide)
      · by_cases hrm : rmsdOn = true
        · rw [if_pos hrm] at hs
          rcases List.mem_singleton.1 hs with rfl
          left
          rw [baseStepId_motif_rmsd]
          exact hskip
        · rw [if_neg hrm] at hs
          exact absurd hs (List.not_mem_nil s)
      · by_cases hpl : plddtOn = true
        · rw [if_pos hpl] at hs
          simp only [List.mem_cons, List.not_mem_nil, or_false] at hs
          rcases hs with rfl | rfl
          · right
            constructor
            · intro y hy
              simp only [List.mem_append, List.mem_cons, List.not_mem_nil,
                or_false] at hy
              rcases hy with (rfl | rfl | rfl | rfl) | hy
              · decide
              · decide
              · exact dash_ne_script _ rfl
              · exact dash_ne_script _ rfl
              · exact dash_ne_script _ (quietFlag_elems a y hy)
            · exact append_ne_append_of_take_ne _ _ _ _ 7 (by decide) (by decide)
                (by decide)
          · right
            constructor
            · intro y hy
              simp only [List.mem_append, List.mem_cons, List.not_mem_nil,
                or_false] at hy
              rcases hy with (rfl | rfl | rfl | rfl) | hy
              · decide
              · decide
              · exact dash_ne_script _ rfl
              · exact dash_ne_script _ rfl
              · exact dash_ne_script _ (quietFlag_elems a y hy)
            · exact append_ne_append_of_take_ne _ _ _ _ 7 (by decide) (by decide)
                (by decide)
        · rw [if_neg hpl] at hs
          exact absurd hs (List.not_mem_nil s)
    obtain ⟨tail, hinv, hsc, hcmp⟩ :=
      exec_steps_motif_frame w now a ("motif-rmsd-" ++ motifId.pyStr) _ ctx hQ
    rw [hrun] at hinv hcmp
    exact ⟨tail, hinv, hsc, hcmp⟩

def c8Doc : JValue :=
  .obj [("global", .obj [("motifs", .obj [("definitions", .arr
     [.obj [("id", .str "m1"), ("chain", .str "A")]])])])]

def c8Config : JValue :=
  .obj [("directories", .obj
    [("pse_files", .str "PF"), ("chai_output", .str "CO"),
     ("boltz_output", .str "BO")])]

def c8Ctx : Ctx :=
  { invoked :=
      [["python", "src/combine_cif_files.py", "--chai-output=CO",
        "--boltz-output=BO", "--pse-files=PF/a1", "--model-idx=4"],
       ["python", "src/motif_alignment.py", "--motif=m1", "--pse-files=PF/a1"],
       ["python", "src/extract_motif_plddt.py", "--motif=m1", "--pse-files=PF/a1"],
       ["python", "src/plot_motif_plddt.py", "--motif=m1", "--pse-files=PF/a1"]] }

/-- Witness for `c8_motif_rmsd_skip`: a concrete motif analysis run with
`--skip-step motif-rmsd` whose four invoked commands avoid the
`plot_motif_rmsd` collaborator and whose ledger never gains
`motif-rmsd-m1`. -/
theorem c8_motif_rmsd_skip_witness :
    ∃ tail, c8Ctx.invoked = ({} : Ctx).invoked ++ tail
      ∧ (∀ c ∈ tail, ∀ y ∈ c, y ≠ "src/plot_motif_rmsd.py")
      ∧ ((("motif-rmsd-" ++ (JValue.str "m1").pyStr) ∈ completedOf c8Ctx)
          ↔ ("motif-rmsd-" ++ (JValue.str "m1").pyStr) ∈ completedOf ({} : Ctx)) := by
  exact c8_motif_rmsd_skip failRmsdWorld "T" { skip_step := ["motif-rmsd"] }
    c8Config {} (.str "a1") (.str "m1") .null c8Doc true c8Ctx
    (by decide) rfl

theorem mergeValue_cases (bv : Option JValue) (v : JValue) :
    mergeValue bv v =
      match bv, v with
      | some (.obj bm), .obj om => .obj (deep_merge bm om)
      | _, _ => v := by
  cases v <;> cases bv <;> try rfl
  all_goals (rename_i x; cases x <;> rfl)

/-- Per-key description of the imperative merge loop: looking up any key in
`deep_merge b o` gives the base value for keys absent from the override and
`mergeValue` of the two sides for keys present in it.  The override's keys
are pairwise distinct, as for every Python dict. -/
theorem deep_merge_lookup (o : JObj) :
    ∀ (b : JObj), (o.map Prod.fst).Nodup → ∀ k,
      JObj.lookup (deep_merge b o) k =
        (JObj.lookup o k).elim (JObj.lookup b k)
          (fun v => some (mergeValue (JObj.lookup b k) v)) := by
  induction o with
  | nil => intro b _ k; rfl
  | cons kv rest ih =>
      intro b hnd k
      cases kv with
      | mk k0 v0 =>
        simp only [List.map_cons, List.nodup_cons] at hnd
        obtain ⟨hk0, hnd'⟩ := hnd
        rw [show deep_merge b ((k0, v0) :: rest)
              = deep_merge (JObj.setKey b k0 (mergeValue (JObj.lookup b k0) v0)) rest
            from rfl]
        rw [ih _ hnd' k, jobj_lookup_cons]
        by_cases hk : k = k0
        · subst hk
          rw [lookup_eq_none_of_not_mem_keys rest k hk0]
          simp [lookup_setKey_self]
        · rw [if_neg hk, lookup_setKey_ne _ _ _ _ hk]

/-- C6: `deep_merge` recurses exactly on keys where both sides hold a
mapping and otherwise takes the override value wholesale; evaluated on the
claim's concrete `methods` example. -/
theorem c6_deep_merge_spec :
    (∀ (b o : JObj), (o.map Prod.fst).Nodup → ∀ k,
        JObj.lookup (deep_merge b o) k =
          (JObj.lookup o k).elim (JObj.lookup b k)
            (fun v => some (mergeValue (JObj.lookup b k) v)))
    ∧ (∀ (bv : Option JValue) (v : JValue), mergeValue bv v =
        match bv, v with
        | some (.obj bm), .obj om => .obj (deep_merge bm om)
        | _, _ => v)
    ∧ deep_merge
        [("methods", .obj [("use_chai", .bool true), ("use_msa", .bool false)])]
        [("methods", .obj [("use_msa", .bool true)])]
      = [("methods", .obj [("use_chai", .bool true), ("use_msa", .bool true)])] := by
  refine ⟨fun b o hnd k => deep_merge_lookup o b hnd k, mergeValue_cases, rfl⟩

/-- Witness for `c6_deep_merge_spec`: its per-key description applied at a
concrete override with pairwise-distinct keys. -/
theorem c6_deep_merge_spec_witness :
    (([(("methods" : String), JValue.obj [("use_msa", .bool true)])].map Prod.fst).Nodup)
    ∧ JObj.lookup
        (deep_merge
          [("methods", .obj [("use_chai", .bool true), ("use_msa", .bool false)])]
          [("methods", .obj [("use_msa", .bool true)])]) "methods"
      = some (.obj [("use_chai", .bool true), ("use_msa", .bool true)]) := by
  constructor
  · decide
  · rw [c6_deep_merge_spec.1
      [("methods", .obj [("use_chai", .bool true), ("use_msa", .bool false)])]
      [("methods", .obj [("use_msa", .bool true)])] (by decide) "methods"]
    rfl

end Pipeline
